import Mathlib

/-!
Shallow embedding of the two backend adapters of this repository:
`optimum_benchmark/backends/py_txi/backend.py` (PyTXIBackend) and
`optimum_benchmark/backends/pytorch/backend.py` (PyTorchBackend).

Python methods that mutate `self` and may raise are embedded as functions
`State → Outcome State Event`: the resulting state is returned together with
the list of externally observable effects performed (events) and an optional
exception.  As in Python, effects performed before an exception remain
performed, and the state at raise time is the state the caller observes
(the caller holds references to the same mutable objects).

Calls into external libraries (docker server launch, `from_pretrained`
materialization, CUDA availability) are parametrized by an environment
record, since their behaviour is outside this repository.
-/

namespace OB

/-- Exceptions raised by the embedded code.  `notImplemented` embeds Python's
`NotImplementedError`, `valueError` embeds `ValueError`, `upstreamError`
embeds any exception propagated unchanged from an external library call. -/
inductive Err where
  | notImplemented (msg : String)
  | valueError (msg : String)
  | upstreamError (msg : String)
deriving DecidableEq, Repr

/-- Result of running an embedded method: final state, the list of observable
effects performed (in order), and the exception if one was raised. -/
structure Outcome (σ : Type) (ε : Type) where
  state : σ
  events : List ε
  error : Option Err
deriving DecidableEq, Repr

/-- A method call that completed normally with no effects. -/
def Outcome.ok {σ ε : Type} (s : σ) : Outcome σ ε :=
  ⟨s, [], none⟩

/-- Sequencing of embedded method calls: if the first raised, the second does
not run (its effects are not performed); otherwise effects accumulate. -/
def Outcome.andThen {σ ε : Type} (o : Outcome σ ε) (f : σ → Outcome σ ε) : Outcome σ ε :=
  match o.error with
  | some _ => o
  | none =>
    let o2 := f o.state
    ⟨o2.state, o.events ++ o2.events, o2.error⟩

/-- Run `f` only when `b` holds, like a guarded statement in Python. -/
def Outcome.when {σ ε : Type} (b : Bool) (f : σ → Outcome σ ε) (s : σ) : Outcome σ ε :=
  if b then f s else Outcome.ok s

/-- Dtype of a serialized tensor. -/
inductive DType where
  | float32
  | int32
deriving DecidableEq, Repr

/-- A serialized tensor as it appears in a checkpoint file: name, dtype and
shape.  Tensor values are irrelevant to every claim. -/
structure TensorSpec where
  name : String
  dtype : DType
  shape : List Nat
deriving DecidableEq, Repr

/-- The state dict of `torch.nn.Linear(1, 1)`: a float32 weight of shape
(1, 1) and a float32 bias of shape (1,). -/
def linear11StateDict : List TensorSpec :=
  [⟨"weight", DType.float32, [1, 1]⟩, ⟨"bias", DType.float32, [1]⟩]

/-- Embedding of `tempfile.TemporaryDirectory`: its name, whether its
finalizer is still attached, and whether the directory still exists on disk. -/
structure TmpDir where
  name : String
  finalizerAttached : Bool
  dirExists : Bool
deriving DecidableEq, Repr

/-- CPython's `TemporaryDirectory.cleanup`: the tree is removed only when the
finalizer detaches live or the directory still exists, so a second call is a
no-op.  Returns the updated handle and whether a removal was performed. -/
def TmpDir.cleanup (t : TmpDir) : TmpDir × Bool :=
  if t.finalizerAttached || t.dirExists then
    (⟨t.name, false, false⟩, true)
  else
    (⟨t.name, false, false⟩, false)

/-- Modelled from the spec: the repository's `task_utils` module (not under
`src/`) defines the set of text-generation task names; the spec's example
task is "text-generation". -/
def TEXT_GENERATION_TASKS : List String :=
  ["text-generation", "text2text-generation", "image-to-text"]

/-- Modelled from the spec: the repository's `task_utils` module (not under
`src/`) defines the set of text-embedding task names. -/
def TEXT_EMBEDDING_TASKS : List String :=
  ["feature-extraction", "sentence-similarity"]

/-- Generation settings patched by both backends.  The fields written by
`prepare_generation_config` and `create_no_weights_model`. -/
structure GenerationConfig where
  eos_token_id : Int
  pad_token_id : Int
  temperature : ℚ
  top_p : ℚ
  top_k : Nat
deriving DecidableEq, Repr

/-- A Python keyword-argument value as it appears in a kwargs dict. -/
inductive KwVal where
  | bool (b : Bool)
  | int (n : Int)
  | str (s : String)
  | noneVal
deriving DecidableEq, Repr

namespace PyTXI

/-- Configuration record of the py-txi backend (`PyTXIConfig`), restricted to
the fields `backend.py` reads.  `volumes` is the host-path → bind-spec dict;
`revision` stands for `hub_kwargs.get("revision", "main")`. -/
structure Config where
  model : String
  task : String
  no_weights : Bool
  volumes : List (String × String)
  gpus : Option String
  devices : Option String
  environment : List String
  ports : List (String × Nat)
  dtype : Option String
  sharded : Option Bool
  quantize : Option String
  num_shard : Option Nat
  speculate : Option Nat
  cuda_graphs : Option Nat
  disable_custom_kernels : Bool
  trust_remote_code : Bool
  max_concurrent_requests : Nat
  pooling : Option String
  revision : String
deriving DecidableEq, Repr

/-- The `TGIConfig` assembled in `load_model_from_pretrained` for generation
tasks: every field is copied from the backend config at launch time. -/
structure TGIConfig where
  model_id : String
  gpus : Option String
  devices : Option String
  volumes : List (String × String)
  environment : List String
  ports : List (String × Nat)
  dtype : Option String
  sharded : Option Bool
  quantize : Option String
  num_shard : Option Nat
  speculate : Option Nat
  cuda_graphs : Option Nat
  disable_custom_kernels : Bool
  trust_remote_code : Bool
  max_concurrent_requests : Nat
deriving DecidableEq, Repr

/-- The `TEIConfig` assembled in `load_model_from_pretrained` for embedding
tasks. -/
structure TEIConfig where
  model_id : String
  gpus : Option String
  devices : Option String
  volumes : List (String × String)
  environment : List String
  ports : List (String × Nat)
  dtype : Option String
  pooling : Option String
  max_concurrent_requests : Nat
deriving DecidableEq, Repr

/-- The loaded model handle: a TGI or TEI server client. -/
inductive Handle where
  | tgi (cfg : TGIConfig)
  | tei (cfg : TEIConfig)
deriving DecidableEq, Repr

/-- Externally observable effects of the py-txi backend. -/
inductive Event where
  | madeNoWeightsDir (path : String)
  | wroteSafetensors (path : String) (tensors : List TensorSpec)
  | savedPretrainedConfig (dir : String)
  | savedPretrainedProcessor (dir : String)
  | materializedModel (dir : String)
  | savedFullModel (dir : String) (tensors : List TensorSpec)
  | savedGenerationConfig (dir : String) (cfg : GenerationConfig)
  | downloadedModel (model : String) (cacheDir : String)
  | launchedServer (h : Handle)
  | removedTmpDir (name : String)
  | deletedModelHandle
  | emptiedCudaCache
  | ranGc
deriving DecidableEq, Repr

/-- Behaviour of the external world consumed by the py-txi backend: the name
the tempfile library picks for the temporary directory, the tensors of the
model materialized by `from_pretrained` + `save_pretrained`, the generation
config shipped with the pretrained model, the hub snapshot ref, and whether
the docker server launches succeed. -/
structure Env where
  tmpdirName : String
  materializedTensors : List TensorSpec
  initialGenerationConfig : GenerationConfig
  snapshotRef : String
  tgiLaunchOk : Bool
  teiLaunchOk : Bool
deriving DecidableEq, Repr

/-- Mutable state of a `PyTXIBackend` instance.  `checkpointTensors` is the
content of `<tmpdir>/no_weights_model/model.safetensors` on disk (`none`
while the file does not exist). -/
structure St where
  config : Config
  tmpdir : TmpDir
  hasTmpdirAttr : Bool
  volume : String
  generation_config : GenerationConfig
  no_weights_model : Option String
  checkpointTensors : Option (List TensorSpec)
  pretrained_model : Option Handle
deriving DecidableEq, Repr

/-- `download_pretrained_model`: downloads the pretrained model into the
volume directory via the hub client (external call, on the meta device). -/
def download_pretrained_model (s : St) : Outcome St Event :=
  ⟨s, [Event.downloadedModel s.config.model s.volume], none⟩

/-- The five field writes shared by `prepare_generation_config` and the
generation branch of `create_no_weights_model`. -/
def patchGenerationConfig (g : GenerationConfig) : GenerationConfig :=
  { g with
    eos_token_id := -100
    pad_token_id := -100
    temperature := 1
    top_p := 1
    top_k := 50 }

/-- `prepare_generation_config`: patch the generation config in place and
save it into the hub cache snapshot directory, whose path is assembled by
string concatenation from the volume, the model name and the snapshot ref
read from the cache's refs file (external read, `env.snapshotRef`). -/
def prepare_generation_config (env : Env) (s : St) : Outcome St Event :=
  let g := patchGenerationConfig s.generation_config
  let model_cache_folder := (String.replace ("models/" ++ s.config.model) "/" "--")
  let model_cache_path := s.volume ++ "/" ++ model_cache_folder
  let model_snapshot_path := model_cache_path ++ "/snapshots/" ++ env.snapshotRef
  ⟨{ s with generation_config := g },
   [Event.savedGenerationConfig model_snapshot_path g], none⟩

/-- `create_no_weights_model`: write the 1×1 linear state dict as the
checkpoint, save config and processor, then — because TXI refuses models
with missing tensors — materialize the full model via `from_pretrained`
with random init and save it over the same directory, replacing the
checkpoint contents with the materialized model's tensors
(`env.materializedTensors`).  For generation tasks the generation config is
then patched and saved alongside. -/
def create_no_weights_model (env : Env) (s : St) : Outcome St Event :=
  let dir := s.tmpdir.name ++ "/no_weights_model"
  let safetensor := dir ++ "/model.safetensors"
  let s1 : St := { s with
    no_weights_model := some dir
    checkpointTensors := some linear11StateDict }
  let evs1 : List Event :=
    [Event.madeNoWeightsDir dir,
     Event.wroteSafetensors safetensor linear11StateDict,
     Event.savedPretrainedConfig dir,
     Event.savedPretrainedProcessor dir]
  let s2 : St := { s1 with checkpointTensors := some env.materializedTensors }
  let evs2 : List Event :=
    [Event.materializedModel dir,
     Event.savedFullModel dir env.materializedTensors,
     Event.emptiedCudaCache]
  if s.config.task ∈ TEXT_GENERATION_TASKS then
    let g := patchGenerationConfig s2.generation_config
    ⟨{ s2 with generation_config := g },
     evs1 ++ evs2 ++ [Event.savedGenerationConfig dir g], none⟩
  else
    ⟨s2, evs1 ++ evs2, none⟩

/-- `load_model_from_pretrained`: launch a TGI server for generation tasks,
a TEI server for embedding tasks, and raise `NotImplementedError` for every
other task.  Server launch is an external call that may fail
(`env.tgiLaunchOk` / `env.teiLaunchOk`). -/
def load_model_from_pretrained (env : Env) (s : St) : Outcome St Event :=
  if s.config.task ∈ TEXT_GENERATION_TASKS then
    if env.tgiLaunchOk then
      let h := Handle.tgi
        ⟨s.config.model, s.config.gpus, s.config.devices, s.config.volumes,
         s.config.environment, s.config.ports, s.config.dtype, s.config.sharded,
         s.config.quantize, s.config.num_shard, s.config.speculate,
         s.config.cuda_graphs, s.config.disable_custom_kernels,
         s.config.trust_remote_code, s.config.max_concurrent_requests⟩
      ⟨{ s with pretrained_model := some h }, [Event.launchedServer h], none⟩
    else
      ⟨s, [], some (Err.upstreamError "TGI server launch failed")⟩
  else if s.config.task ∈ TEXT_EMBEDDING_TASKS then
    if env.teiLaunchOk then
      let h := Handle.tei
        ⟨s.config.model, s.config.gpus, s.config.devices, s.config.volumes,
         s.config.environment, s.config.ports, s.config.dtype, s.config.pooling,
         s.config.max_concurrent_requests⟩
      ⟨{ s with pretrained_model := some h }, [Event.launchedServer h], none⟩
    else
      ⟨s, [], some (Err.upstreamError "TEI server launch failed")⟩
  else
    ⟨s, [], some (Err.notImplemented ("TXI does not support task " ++ s.config.task))⟩

/-- The configuration substitution performed for the no-weights launch: the
temporary directory becomes the mounted volume and the model path points
inside it. -/
def substitutedSt (s : St) : St :=
  { s with config := { s.config with
      volumes := [(s.tmpdir.name, "bind=/data,mode=rw")]
      model := "/data/no_weights_model" } }

/-- The substitute / launch / restore sequence of `load_model_with_no_weights`.
Faithful to the source: the restore statement runs only after a successful
launch — there is no try/finally, so on an exception the substituted values
remain in place. -/
def launchAndRestoreStep (env : Env) (s1 : St) : Outcome St Event :=
  let originalVolumes := s1.config.volumes
  let originalModel := s1.config.model
  let o := load_model_from_pretrained env (substitutedSt s1)
  match o.error with
  | some _ => o
  | none =>
    ⟨{ o.state with config := { o.state.config with
         model := originalModel, volumes := originalVolumes } },
     o.events, none⟩

/-- `load_model_with_no_weights`: create the no-weights model, substitute the
temporary directory as the mounted volume and rewrite the model path to point
inside it, launch, then restore both fields. -/
def load_model_with_no_weights (env : Env) (s : St) : Outcome St Event :=
  (create_no_weights_model env s).andThen (launchAndRestoreStep env)

/-- The download / patch / launch sequence of `__init__` taken when real
pretrained weights are used. -/
def pretrainedPathStep (env : Env) (s : St) : Outcome St Event :=
  (download_pretrained_model s).andThen fun sA =>
    (Outcome.when (sA.config.task ∈ TEXT_GENERATION_TASKS)
      (prepare_generation_config env) sA).andThen fun sB =>
      load_model_from_pretrained env sB

/-- The trailing `self.tmpdir.cleanup()` of `__init__`. -/
def tmpdirCleanupStep (s : St) : Outcome St Event :=
  let (t, removed) := s.tmpdir.cleanup
  ⟨{ s with tmpdir := t },
   if removed then [Event.removedTmpDir t.name] else [], none⟩

/-- The backend state right after the temporary directory is created in
`__init__`, before the volume key is read. -/
def freshSt (env : Env) (config : Config) : St :=
  { config := config
    tmpdir := ⟨env.tmpdirName, true, true⟩
    hasTmpdirAttr := true
    volume := ""
    generation_config := env.initialGenerationConfig
    no_weights_model := none
    checkpointTensors := none
    pretrained_model := none }

/-- `PyTXIBackend.__init__`: create the temporary directory, read the first
volume key (an `IndexError` — embedded as an upstream error — if `volumes`
is empty), then either the no-weights path or the download / patch / launch
path, and finally clean up the temporary directory. -/
def init (env : Env) (config : Config) : Outcome St Event :=
  let s0 : St := freshSt env config
  match config.volumes.head? with
  | none => ⟨s0, [], some (Err.upstreamError "IndexError: empty volumes")⟩
  | some kv =>
    let s1 : St := { s0 with volume := kv.1 }
    (if config.no_weights then
      load_model_with_no_weights env s1
     else
      pretrainedPathStep env s1).andThen tmpdirCleanupStep

/-- The request shape produced by `prepare_inputs`: a `prompt` dict for
generation tasks, a `text` dict for embedding tasks. -/
inductive Prepared where
  | prompt (xs : List String)
  | text (xs : List String)
deriving DecidableEq, Repr

/-- `prepare_inputs`: decode the input ids (external `batch_decode`, the
`decoded` argument) and wrap them under the task-appropriate key; raise
`NotImplementedError` for any other task.  Reads but never mutates state. -/
def prepare_inputs (s : St) (decoded : List String) : Except Err Prepared :=
  if s.config.task ∈ TEXT_GENERATION_TASKS then
    Except.ok (Prepared.prompt decoded)
  else if s.config.task ∈ TEXT_EMBEDDING_TASKS then
    Except.ok (Prepared.text decoded)
  else
    Except.error (Err.notImplemented ("TXI does not support task " ++ s.config.task))

/-- The argument record of a `pretrained_model.generate` call on the server
client: the prepared inputs plus the two forwarded keyword arguments. -/
structure ServerGenerateCall where
  inputs : Prepared
  do_sample : KwVal
  max_new_tokens : KwVal
deriving DecidableEq, Repr

/-- `prefill`: forwards the prepared inputs plus exactly
`kwargs.get("do_sample", False)` and `kwargs.get("max_new_tokens")` to the
server client's `generate`. -/
def prefill (inputs : Prepared) (kwargs : List (String × KwVal)) : ServerGenerateCall :=
  ⟨inputs,
   (kwargs.lookup "do_sample").getD (KwVal.bool false),
   (kwargs.lookup "max_new_tokens").getD KwVal.noneVal⟩

/-- `generate`: same forwarding as `prefill`. -/
def generate (inputs : Prepared) (kwargs : List (String × KwVal)) : ServerGenerateCall :=
  ⟨inputs,
   (kwargs.lookup "do_sample").getD (KwVal.bool false),
   (kwargs.lookup "max_new_tokens").getD KwVal.noneVal⟩

/-- Modelled from the spec: the shared base `Backend.clean` (not under
`src/`) releases the model handle, checking resource existence before
releasing. -/
def baseClean (s : St) : Outcome St Event :=
  match s.pretrained_model with
  | some _ => ⟨{ s with pretrained_model := none }, [Event.deletedModelHandle], none⟩
  | none => Outcome.ok s

/-- `PyTXIBackend.clean`: base clean, then — only if the `tmpdir` attribute
exists — `tmpdir.cleanup()`, then `gc.collect()`. -/
def clean (s : St) : Outcome St Event :=
  (baseClean s).andThen fun s1 =>
    (if s1.hasTmpdirAttr then
      let (t, removed) := s1.tmpdir.cleanup
      (⟨{ s1 with tmpdir := t },
        if removed then [Event.removedTmpDir t.name] else [], none⟩ : Outcome St Event)
     else Outcome.ok s1).andThen fun s2 =>
      ⟨s2, [Event.ranGc], none⟩

end PyTXI

namespace PyTorch

/-- The `exllama_config` sub-dict of a quantization config, restricted to the
only key the source reads (`.get("version", None)`). -/
structure ExllamaConfig where
  version : Option Nat
deriving DecidableEq, Repr

/-- A quantization-config dict, restricted to the keys the source reads:
`quant_method` (via `.get("quant_method", None)`) and `exllama_config`
(presence tested with `in` / `hasattr`, then `.get("version", None)`).
`none` in a field embeds absence of the key. -/
structure QuantDict where
  quant_method : Option String
  exllama_config : Option ExllamaConfig
deriving DecidableEq, Repr

/-- Key-wise merge of `dict(base, **override)`: keys present in `override`
win. -/
def QuantDict.merge (base override : QuantDict) : QuantDict :=
  ⟨match override.quant_method with
    | some m => some m
    | none => base.quant_method,
   match override.exllama_config with
    | some e => some e
    | none => base.exllama_config⟩

/-- The pretrained config obtained by the shared base backend from the hub:
only its `quantization_config` attribute is read here (`none` embeds
`hasattr(..., "quantization_config") == False`). -/
structure PretrainedConfig where
  quantization_config : Option QuantDict
deriving DecidableEq, Repr

/-- Configuration record of the pytorch backend (`PyTorchConfig`), restricted
to the fields `backend.py` reads. -/
structure Config where
  model : String
  library : String
  device : String
  device_map : Option String
  no_weights : Bool
  deepspeed_inference : Bool
  quantization_scheme : Option String
  quantization_config : QuantDict
  torch_compile : Bool
  inter_op_num_threads : Option Nat
  intra_op_num_threads : Option Nat
  autocast_enabled : Bool
  autocast_dtype : Option String
  cache_implementation : Option String
  eval_mode : Bool
  to_bettertransformer : Bool
  peft_type : Option String
  torch_dtype : Option String
  attn_implementation : Option String
  low_cpu_mem_usage : Option Bool
deriving DecidableEq, Repr

/-- `is_quantized`: a quantization scheme is configured, or the pretrained
config carries a quantization config with a `quant_method`. -/
def is_quantized (c : Config) (pc : Option PretrainedConfig) : Bool :=
  c.quantization_scheme.isSome ||
    (match pc with
     | some p =>
       match p.quantization_config with
       | some q => q.quant_method.isSome
       | none => false
     | none => false)

/-- `is_gptq_quantized`. -/
def is_gptq_quantized (c : Config) (pc : Option PretrainedConfig) : Bool :=
  c.quantization_scheme == some "gptq" ||
    (match pc with
     | some p =>
       match p.quantization_config with
       | some q => q.quant_method == some "gptq"
       | none => false
     | none => false)

/-- `is_awq_quantized`. -/
def is_awq_quantized (c : Config) (pc : Option PretrainedConfig) : Bool :=
  c.quantization_scheme == some "awq" ||
    (match pc with
     | some p =>
       match p.quantization_config with
       | some q => q.quant_method == some "awq"
       | none => false
     | none => false)

/-- `is_bnb_quantized`. -/
def is_bnb_quantized (c : Config) (pc : Option PretrainedConfig) : Bool :=
  c.quantization_scheme == some "bnb" ||
    (match pc with
     | some p =>
       match p.quantization_config with
       | some q => q.quant_method == some "bnb"
       | none => false
     | none => false)

/-- `hasattr` applied to the pretrained config's `quantization_config`
sub-object: that sub-object is a plain dict in every reachable flow (the
quantization predicates read it with `.get(...)`, and
`create_no_weights_model` assigns it `to_dict()`), and `hasattr` on a dict
tests object attributes, not keys, so it is false for every data key such
as "exllama_config". -/
def quantDictHasAttr (_q : QuantDict) (_attr : String) : Bool :=
  false

/-- The pretrained-config disjunct of `is_exllamav2`:
`hasattr(self.pretrained_config, "quantization_config")` (embedded as the
`Option` match), then
`hasattr(self.pretrained_config.quantization_config, "exllama_config")` —
which, the sub-object being a dict, never holds — guarding the version
test, which is therefore unreachable: the disjunct is false for every
pretrained config. -/
def pcExllamaVersionTwo (pc : Option PretrainedConfig) : Bool :=
  match pc with
  | some p =>
    match p.quantization_config with
    | some q =>
      quantDictHasAttr q "exllama_config" &&
        (match q.exllama_config with
         | some e => e.version == some 2
         | none => false)
    | none => false
  | none => false

/-- The backend-config disjunct of `is_exllamav2`:
`"exllama_config" in self.config.quantization_config` — a genuine key test
on the backend's quantization dict — followed by
`.get("version", None) == 2`. -/
def configExllamaVersionTwo (c : Config) : Bool :=
  match c.quantization_config.exllama_config with
  | some e => e.version == some 2
  | none => false

/-- `is_exllamav2`: quantized with GPTQ or AWQ and an exllama config of
version 2, coming from the pretrained config (a disjunct that can never
hold, its `hasattr` testing a dict) or from the backend config's
quantization dict. -/
def is_exllamav2 (c : Config) (pc : Option PretrainedConfig) : Bool :=
  is_quantized c pc &&
  (is_gptq_quantized c pc || is_awq_quantized c pc) &&
  (pcExllamaVersionTwo pc || configExllamaVersionTwo c)

/-- The state reached by the external training loop (`trainer.train()`): only
the step counter is relevant here. -/
structure TrainerState where
  global_step : Nat
deriving DecidableEq, Repr

/-- Externally observable effects of the pytorch backend. -/
inductive Event where
  | processedQuantizationConfig (scheme : String)
  | setNumThreads (n : Nat)
  | setNumInteropThreads (n : Nat)
  | enabledAutocast
  | setAutocastDtype (device : String) (dtype : String)
  | createdTmpDir (name : String)
  | madeNoWeightsDir (path : String)
  | wroteSafetensors (path : String) (tensors : List TensorSpec)
  | savedPretrainedConfig (dir : String) (withQuant : Bool)
  | loadedTimmModel (model : String)
  | loadedDiffusionPipeline (model : String) (deviceMap : Option String)
  | loadedTransformersModel (model : String) (deviceMapArg : Option String)
  | movedToDevice (device : String)
  | loadedOnMetaDevice (model : String)
  | materializedOnCpu
  | tiedWeights
  | setCacheImplementation (impl : String)
  | setEvalMode
  | enabledBetterTransformer
  | appliedPeft (peft : String)
  | compiledModel
  | ranGenerate (inputsDevice : String) (maxNewTokens : Nat)
  | initializedDeepspeed
  | removedTmpDir (name : String)
  | deletedModel
  | ranGc
  | emptiedCudaCache
  | wrappedTrainingArgs
  | createdTrainer
  | ranTraining (finalState : TrainerState)
deriving DecidableEq, Repr

/-- Behaviour of the external world consumed by the pytorch backend. -/
structure Env where
  tmpdirName : String
  metaLinearModules : List (String × Nat)
  cudaAvailable : Bool
  deviceMapPlacement : String
  trainerFinalState : TrainerState
deriving DecidableEq, Repr

/-- Mutable state of a `PyTorchBackend` instance.  `tmpdir = none` and
`hasModelAttr = false` embed absence of the respective attribute
(`hasattr` is false). -/
structure St where
  config : Config
  pretrained_config : Option PretrainedConfig
  resolvedQuant : Option QuantDict
  tmpdir : Option TmpDir
  no_weights_model : Option String
  checkpointTensors : Option (List TensorSpec)
  hasModelAttr : Bool
  modelDevice : Option String
deriving DecidableEq, Repr

/-- `validate_library`: only timm, diffusers and transformers are accepted. -/
def validate_library (s : St) : Outcome St Event :=
  if s.config.library = "timm" then Outcome.ok s
  else if s.config.library = "diffusers" then Outcome.ok s
  else if s.config.library = "transformers" then Outcome.ok s
  else ⟨s, [], some (Err.valueError ("Library " ++ s.config.library ++ " not supported"))⟩

/-- `process_quantization_config`: resolve the effective quantization config
by merging the pretrained config's dict with the backend config's dict
(backend values win), dispatching on the recognized schemes; unrecognized
schemes raise `ValueError`. -/
def process_quantization_config (s : St) : Outcome St Event :=
  let pcQuant : QuantDict :=
    match s.pretrained_config with
    | some p => (p.quantization_config).getD ⟨none, none⟩
    | none => ⟨none, none⟩
  let merged := QuantDict.merge pcQuant s.config.quantization_config
  if is_gptq_quantized s.config s.pretrained_config then
    ⟨{ s with resolvedQuant := some merged },
     [Event.processedQuantizationConfig "gptq"], none⟩
  else if is_awq_quantized s.config s.pretrained_config then
    ⟨{ s with resolvedQuant := some merged },
     [Event.processedQuantizationConfig "awq"], none⟩
  else if is_bnb_quantized s.config s.pretrained_config then
    ⟨{ s with resolvedQuant := some merged },
     [Event.processedQuantizationConfig "bnb"], none⟩
  else
    ⟨s, [], some (Err.valueError "Quantization scheme not recognized")⟩

/-- Whether a torch device string names a CUDA device ("cuda", "cuda:0", …). -/
def isCudaDevice (device : String) : Bool :=
  decide (device.data.take 4 = "cuda".data)

/-- `.to(device)` on the loaded model: raises when a CUDA device is requested
on a machine without CUDA, otherwise records the move. -/
def moveToDevice (env : Env) (device : String) (s : St) : Outcome St Event :=
  if isCudaDevice device && !env.cudaAvailable then
    ⟨s, [], some (Err.upstreamError "CUDA device requested but CUDA is not available")⟩
  else
    ⟨{ s with modelDevice := some device }, [Event.movedToDevice device], none⟩

/-- `load_model_from_pretrained`: branch structure of the source — timm,
diffusers, quantized, explicit device map, plain — with the explicit
`.to(device)` moves exactly where the source performs them. -/
def load_model_from_pretrained (env : Env) (s : St) : Outcome St Event :=
  if s.config.library = "timm" then
    let s1 : St := { s with hasModelAttr := true, modelDevice := some "cpu" }
    (⟨s1, [Event.loadedTimmModel s1.config.model], none⟩ : Outcome St Event).andThen
      fun s2 =>
        if s2.config.device ≠ "cpu" then moveToDevice env s2.config.device s2
        else Outcome.ok s2
  else if s.config.library = "diffusers" then
    let placed : String :=
      match s.config.device_map with
      | some _ => env.deviceMapPlacement
      | none => "cpu"
    let s1 : St := { s with hasModelAttr := true, modelDevice := some placed }
    (⟨s1, [Event.loadedDiffusionPipeline s1.config.model s1.config.device_map], none⟩ :
        Outcome St Event).andThen
      fun s2 =>
        if s2.config.device_map = none ∧ s2.config.device ≠ "cpu" then
          moveToDevice env s2.config.device s2
        else Outcome.ok s2
  else if is_quantized s.config s.pretrained_config then
    let deviceMapArg : Option String := some (s.config.device_map.getD s.config.device)
    let placed : String :=
      match s.config.device_map with
      | some _ => env.deviceMapPlacement
      | none => s.config.device
    ⟨{ s with hasModelAttr := true, modelDevice := some placed },
     [Event.loadedTransformersModel s.config.model deviceMapArg], none⟩
  else if s.config.device_map.isSome then
    ⟨{ s with hasModelAttr := true, modelDevice := some env.deviceMapPlacement },
     [Event.loadedTransformersModel s.config.model s.config.device_map], none⟩
  else
    let s1 : St := { s with hasModelAttr := true, modelDevice := some "cpu" }
    (⟨s1, [Event.loadedTransformersModel s1.config.model none], none⟩ :
        Outcome St Event).andThen
      fun s2 =>
        if s2.config.device ≠ "cpu" then moveToDevice env s2.config.device s2
        else Outcome.ok s2

/-- The state dict written by `create_no_weights_model`: the 1×1 linear pair,
extended — for exllama-v2 quantization — with one int32 `g_idx` tensor of
shape `(in_features,)` per module of the meta model having an `in_features`
attribute. -/
def noWeightsStateDict (env : Env) (c : Config) (pc : Option PretrainedConfig) :
    List TensorSpec :=
  if is_exllamav2 c pc then
    linear11StateDict ++
      env.metaLinearModules.map
        (fun nm => ⟨nm.1 ++ ".g_idx", DType.int32, [nm.2]⟩)
  else
    linear11StateDict

/-- `create_no_weights_model`: raises without a pretrained config; writes the
no-weights state dict, then saves the (possibly quantization-augmented)
pretrained config alongside. -/
def create_no_weights_model (env : Env) (s : St) : Outcome St Event :=
  match s.pretrained_config with
  | none => ⟨s, [], some (Err.valueError "Cant create no weights model without a pretrained config")⟩
  | some pc =>
    match s.tmpdir with
    | none => ⟨s, [], some (Err.upstreamError "AttributeError: tmpdir")⟩
    | some t =>
      let dir := t.name ++ "/no_weights_model"
      let state_dict : List TensorSpec :=
        noWeightsStateDict env s.config s.pretrained_config
      let evs1 : List Event :=
        [Event.madeNoWeightsDir dir,
         Event.wroteSafetensors (dir ++ "/model.safetensors") state_dict]
      let s1 : St := { s with
        no_weights_model := some dir
        checkpointTensors := some state_dict }
      if is_quantized s.config s.pretrained_config then
        match s1.resolvedQuant with
        | none => ⟨s1, evs1, some (Err.upstreamError "AttributeError: quantization_config")⟩
        | some q =>
          ⟨{ s1 with pretrained_config := some { pc with quantization_config := some q } },
           evs1 ++ [Event.savedPretrainedConfig dir true], none⟩
      else
        ⟨s1, evs1 ++ [Event.savedPretrainedConfig dir false], none⟩

/-- The model-path substitution performed for the no-weights load. -/
def modelSwappedSt (s : St) (nw : String) : St :=
  { s with config := { s.config with model := nw } }

/-- The swap / load / restore sequence of `load_model_with_no_weights`.
Faithful to the source: the restore runs only on the non-raising path. -/
def swapLoadRestoreStep (env : Env) (s1 : St) : Outcome St Event :=
  match s1.no_weights_model with
  | none => ⟨s1, [], some (Err.upstreamError "AttributeError: no_weights_model")⟩
  | some nw =>
    let originalModel := s1.config.model
    let o := load_model_from_pretrained env (modelSwappedSt s1 nw)
    match o.error with
    | some _ => o
    | none =>
      ⟨{ o.state with config := { o.state.config with model := originalModel } },
       o.events, none⟩

/-- `load_model_with_no_weights`: deepspeed path loads on the meta device and
materializes on cpu; otherwise the model path is swapped to the no-weights
directory for the duration of `load_model_from_pretrained` and restored. -/
def load_model_with_no_weights (env : Env) (s : St) : Outcome St Event :=
  (create_no_weights_model env s).andThen fun s1 =>
    if s1.config.deepspeed_inference then
      ⟨{ s1 with hasModelAttr := true, modelDevice := some "cpu" },
       [Event.loadedOnMetaDevice s1.config.model,
        Event.materializedOnCpu, Event.tiedWeights], none⟩
    else
      swapLoadRestoreStep env s1

/-- The threads step of `__init__`: `torch.set_num_threads` for
`inter_op_num_threads`, `torch.set_num_interop_threads` for
`intra_op_num_threads` (as in the source). -/
def threadsStep (s : St) : Outcome St Event :=
  let e1 : List Event :=
    match s.config.inter_op_num_threads with
    | some n => [Event.setNumThreads n]
    | none => []
  let e2 : List Event :=
    match s.config.intra_op_num_threads with
    | some n => [Event.setNumInteropThreads n]
    | none => []
  ⟨s, e1 ++ e2, none⟩

/-- The autocast step of `__init__`: enabling autocast, then setting the
autocast dtype for cpu or cuda, rejecting every other device with
`ValueError`. -/
def autocastStep (s : St) : Outcome St Event :=
  if s.config.autocast_enabled then
    (⟨s, [Event.enabledAutocast], none⟩ : Outcome St Event).andThen fun s1 =>
      match s1.config.autocast_dtype with
      | some d =>
        if s1.config.device = "cpu" then
          ⟨s1, [Event.setAutocastDtype "cpu" d], none⟩
        else if s1.config.device = "cuda" then
          ⟨s1, [Event.setAutocastDtype "cuda" d], none⟩
        else
          ⟨s1, [], some (Err.valueError ("Device " ++ s1.config.device ++ " not supported for autocast"))⟩
      | none => Outcome.ok s1
  else Outcome.ok s

/-- The torch-compile step of `__init__`: for diffusers, unet and vae are
compiled; otherwise the model's forward is compiled and a hard-coded
`generate` call is immediately executed on input tensors allocated on
`cuda:0` with `max_new_tokens = min_new_tokens = 16`.  Allocating the inputs
raises without CUDA; the generate call raises unless the model sits on
`cuda:0` (a bare `.to("cuda")` places the model on `cuda:0`). -/
def compileStep (env : Env) (s : St) : Outcome St Event :=
  if s.config.torch_compile then
    if s.config.library = "diffusers" then
      ⟨s, [Event.compiledModel], none⟩
    else if !env.cudaAvailable then
      ⟨s, [Event.compiledModel],
       some (Err.upstreamError "RuntimeError: CUDA is not available")⟩
    else if s.modelDevice = some "cuda" ∨ s.modelDevice = some "cuda:0" then
      ⟨s, [Event.compiledModel, Event.ranGenerate "cuda:0" 16], none⟩
    else
      ⟨s, [Event.compiledModel],
       some (Err.upstreamError "RuntimeError: inputs on cuda:0 but model on another device")⟩
  else Outcome.ok s

/-- The backend state right after the shared base `Backend.__init__`, before
any attribute of `PyTorchBackend.__init__` is set. -/
def freshSt (config : Config) (pc : Option PretrainedConfig) : St :=
  { config := config
    pretrained_config := pc
    resolvedQuant := none
    tmpdir := none
    no_weights_model := none
    checkpointTensors := none
    hasModelAttr := false
    modelDevice := none }

/-- The fail-fast compatibility check at the top of `__init__`. -/
def deepspeedQuantCheckStep (s : St) : Outcome St Event :=
  if s.config.deepspeed_inference && is_quantized s.config s.pretrained_config then
    ⟨s, [], some (Err.valueError "Deepspeed-Inference is not compatible with Transformers quantization")⟩
  else Outcome.ok s

/-- The quantization-processing step of `__init__`, run only when quantized. -/
def quantStep (s : St) : Outcome St Event :=
  Outcome.when (is_quantized s.config s.pretrained_config) process_quantization_config s

/-- The temporary-directory creation of `__init__`. -/
def tmpdirStep (env : Env) (s : St) : Outcome St Event :=
  ⟨{ s with tmpdir := some ⟨env.tmpdirName, true, true⟩ },
   [Event.createdTmpDir env.tmpdirName], none⟩

/-- The model-loading step of `__init__`: no-weights is rejected for
diffusers and timm, otherwise the no-weights or the pretrained path runs. -/
def modelStep (env : Env) (s : St) : Outcome St Event :=
  if s.config.no_weights && (s.config.library == "diffusers" || s.config.library == "timm") then
    ⟨s, [], some (Err.valueError "Diffusion pipelines and Timm models dont support no weights")⟩
  else if s.config.no_weights then
    load_model_with_no_weights env s
  else
    load_model_from_pretrained env s

/-- The `self.tmpdir.cleanup()` call of `__init__`, guarded in the source by
the attribute existing. -/
def tmpdirCleanupStep (s : St) : Outcome St Event :=
  match s.tmpdir with
  | some t =>
    let (t2, removed) := t.cleanup
    ⟨{ s with tmpdir := some t2 },
     if removed then [Event.removedTmpDir t2.name] else [], none⟩
  | none => Outcome.ok s

/-- The kv-cache step of `__init__`. -/
def cacheStep (s : St) : Outcome St Event :=
  match s.config.cache_implementation with
  | some impl => ⟨s, [Event.setCacheImplementation impl], none⟩
  | none => Outcome.ok s

/-- The eval-mode step of `__init__`. -/
def evalStep (s : St) : Outcome St Event :=
  if s.config.eval_mode && s.config.library != "diffusers" then
    ⟨s, [Event.setEvalMode], none⟩
  else Outcome.ok s

/-- The BetterTransformer step of `__init__`. -/
def bettertransformerStep (s : St) : Outcome St Event :=
  if s.config.to_bettertransformer then
    ⟨s, [Event.enabledBetterTransformer], none⟩
  else Outcome.ok s

/-- The PEFT step of `__init__`. -/
def peftStep (s : St) : Outcome St Event :=
  match s.config.peft_type with
  | some p => ⟨s, [Event.appliedPeft p], none⟩
  | none => Outcome.ok s

/-- The DeepSpeed inference-engine step of `__init__`. -/
def deepspeedInitStep (s : St) : Outcome St Event :=
  if s.config.deepspeed_inference then
    ⟨s, [Event.initializedDeepspeed], none⟩
  else Outcome.ok s

/-- `PyTorchBackend.__init__`: the full construction pipeline in source
order — base init, library validation, the deepspeed/quantization
compatibility check, quantization processing, threads, autocast, temporary
directory, model loading (rejecting no-weights for diffusers/timm), tmpdir
cleanup, kv-cache, eval mode, BetterTransformer, PEFT, torch compile,
deepspeed engine init. -/
def init (env : Env) (config : Config) (pc : Option PretrainedConfig) : Outcome St Event :=
  (validate_library (freshSt config pc)).andThen fun s =>
  (deepspeedQuantCheckStep s).andThen fun s =>
  (quantStep s).andThen fun s =>
  (threadsStep s).andThen fun s =>
  (autocastStep s).andThen fun s =>
  (tmpdirStep env s).andThen fun s =>
  (modelStep env s).andThen fun s =>
  (tmpdirCleanupStep s).andThen fun s =>
  (cacheStep s).andThen fun s =>
  (evalStep s).andThen fun s =>
  (bettertransformerStep s).andThen fun s =>
  (peftStep s).andThen fun s =>
  (compileStep env s).andThen fun s =>
  deepspeedInitStep s

/-- `PyTorchBackend.train`: wraps the training arguments, builds a `Trainer`,
runs the training loop (which reaches `env.trainerFinalState`) — and then
falls off the end of the method: despite the `-> TrainerState` annotation
there is no return statement, so the Python value returned to the caller is
`None` (embedded as the second component being `none`). -/
def train {δ α κ γ : Type} (env : Env) (s : St)
    (trainingDataset : δ) (trainingArguments : α)
    (trainingCallbacks : κ) (trainingDataCollator : γ) :
    Outcome St Event × Option TrainerState :=
  (⟨s,
    [Event.wrappedTrainingArgs, Event.createdTrainer,
     Event.ranTraining env.trainerFinalState], none⟩, none)

/-- `PyTorchBackend.clean`: cleanup of the temporary directory when the
attribute exists, deletion of the model when the attribute exists (followed
by `gc.collect()`), then emptying the CUDA cache when the device is cuda. -/
def clean (s : St) : Outcome St Event :=
  ((match s.tmpdir with
    | some t =>
      let (t2, removed) := t.cleanup
      (⟨{ s with tmpdir := some t2 },
        if removed then [Event.removedTmpDir t2.name] else [], none⟩ : Outcome St Event)
    | none => Outcome.ok s) : Outcome St Event).andThen fun s1 =>
    (if s1.hasModelAttr then
      (⟨{ s1 with hasModelAttr := false }, [Event.deletedModel, Event.ranGc], none⟩ :
        Outcome St Event)
     else Outcome.ok s1).andThen fun s2 =>
      if s2.config.device = "cuda" then
        ⟨s2, [Event.emptiedCudaCache], none⟩
      else Outcome.ok s2

/-- The events of `PyTorch.clean` that release a resource (temporary
directory removal, model handle deletion). -/
def Event.isResourceRelease : Event → Bool
  | Event.removedTmpDir _ => true
  | Event.deletedModel => true
  | _ => false

end PyTorch

/-- The events of `PyTXI.clean` that release a resource. -/
def PyTXI.Event.isResourceRelease : PyTXI.Event → Bool
  | PyTXI.Event.removedTmpDir _ => true
  | PyTXI.Event.deletedModelHandle => true
  | _ => false

/-- A generation config as shipped with a typical pretrained model, before
patching. -/
def sampleGenerationConfig : GenerationConfig :=
  ⟨50256, 50256, 9 / 10, 95 / 100, 50⟩

/-- Tensors of a small materialized language model, as produced by the
external `from_pretrained` + `save_pretrained` round trip. -/
def sampleMaterializedTensors : List TensorSpec :=
  [⟨"transformer.wte.weight", DType.float32, [8, 4]⟩,
   ⟨"transformer.h.0.attn.c_attn.weight", DType.float32, [4, 12]⟩,
   ⟨"lm_head.weight", DType.float32, [8, 4]⟩]

/-- A concrete external environment for the py-txi backend. -/
def txiSampleEnv : PyTXI.Env :=
  ⟨"/tmp/tmpx1", sampleMaterializedTensors, sampleGenerationConfig, "abc123", true, true⟩

/-- A concrete py-txi configuration: text generation on gpt2 with synthesized
weights. -/
def txiSampleConfig : PyTXI.Config :=
  { model := "gpt2"
    task := "text-generation"
    no_weights := true
    volumes := [("/home/user/.cache/huggingface", "bind=/data,mode=rw")]
    gpus := none
    devices := none
    environment := []
    ports := [("80/tcp", 8080)]
    dtype := some "float16"
    sharded := none
    quantize := none
    num_shard := none
    speculate := none
    cuda_graphs := none
    disable_custom_kernels := false
    trust_remote_code := false
    max_concurrent_requests := 128
    pooling := none
    revision := "main" }

/-- The py-txi configuration of an unsupported task (not a generation task,
not an embedding task), with synthesized weights. -/
def txiUnsupportedNoWeightsConfig : PyTXI.Config :=
  { txiSampleConfig with task := "image-classification" }

/-- The py-txi configuration of an unsupported task with real pretrained
weights. -/
def txiUnsupportedPretrainedConfig : PyTXI.Config :=
  { txiSampleConfig with task := "image-classification", no_weights := false }

/-- A concrete external environment for the pytorch backend: CUDA present,
device-map dispatch places the model on cuda:0. -/
def ptSampleEnv : PyTorch.Env :=
  ⟨"/tmp/tmpy2", [("model.layers.0.fc1", 16)], true, "cuda:0", ⟨100⟩⟩

/-- A concrete pytorch configuration: plain transformers model on cuda. -/
def ptSampleConfig : PyTorch.Config :=
  { model := "gpt2"
    library := "transformers"
    device := "cuda"
    device_map := none
    no_weights := false
    deepspeed_inference := false
    quantization_scheme := none
    quantization_config := ⟨none, none⟩
    torch_compile := false
    inter_op_num_threads := none
    intra_op_num_threads := none
    autocast_enabled := false
    autocast_dtype := none
    cache_implementation := none
    eval_mode := true
    to_bettertransformer := false
    peft_type := none
    torch_dtype := some "float16"
    attn_implementation := none
    low_cpu_mem_usage := none }

/-- A pytorch state as loaded mid-construction: timm model requested with an
automatic device map on a cuda device. -/
def ptTimmDeviceMapSt : PyTorch.St :=
  PyTorch.freshSt
    { ptSampleConfig with library := "timm", device_map := some "auto", device := "cuda" }
    none

/-- The pytorch configuration exercising the torch-compile block: compile
enabled on a plain transformers model on cuda. -/
def ptCompileConfig : PyTorch.Config :=
  { ptSampleConfig with torch_compile := true }

/-- The pytorch configuration combining deepspeed inference with a
quantization scheme. -/
def ptDeepspeedQuantConfig : PyTorch.Config :=
  { ptSampleConfig with deepspeed_inference := true, quantization_scheme := some "gptq" }

/-- The pytorch configuration for a no-weights GPTQ model with exllama v2:
the case in which `g_idx` placeholder tensors are synthesized. -/
def ptExllamaNoWeightsConfig : PyTorch.Config :=
  { ptSampleConfig with
    no_weights := true
    device := "cpu"
    quantization_scheme := some "gptq"
    quantization_config := ⟨none, some ⟨some 2⟩⟩ }

/-! ### Reasoning toolkit for `Outcome` sequencing -/

theorem Outcome.mk_none_andThen {σ ε : Type} (s : σ) (evs : List ε)
    (f : σ → Outcome σ ε) :
    (Outcome.mk s evs none).andThen f =
      ⟨(f s).state, evs ++ (f s).events, (f s).error⟩ := rfl

theorem Outcome.mk_some_andThen {σ ε : Type} (s : σ) (evs : List ε) (e : Err)
    (f : σ → Outcome σ ε) :
    (Outcome.mk s evs (some e)).andThen f = ⟨s, evs, some e⟩ := rfl

theorem Outcome.ok_andThen {σ ε : Type} (s : σ) (f : σ → Outcome σ ε) :
    (Outcome.ok s).andThen f = ⟨(f s).state, (f s).events, (f s).error⟩ := by
  simp [Outcome.ok, Outcome.mk_none_andThen]

theorem Outcome.andThen_of_error_none {σ ε : Type} {o : Outcome σ ε}
    {f : σ → Outcome σ ε} (h : o.error = none) :
    o.andThen f = ⟨(f o.state).state, o.events ++ (f o.state).events, (f o.state).error⟩ := by
  unfold Outcome.andThen
  rw [h]

theorem Outcome.andThen_of_error_some {σ ε : Type} {o : Outcome σ ε}
    {f : σ → Outcome σ ε} {e : Err} (h : o.error = some e) :
    o.andThen f = o := by
  unfold Outcome.andThen
  rw [h]

theorem Outcome.error_none_left {σ ε : Type} {o : Outcome σ ε}
    {f : σ → Outcome σ ε} (h : (o.andThen f).error = none) : o.error = none := by
  cases he : o.error with
  | none => rfl
  | some e => rw [Outcome.andThen_of_error_some he] at h; rw [he] at h; exact h

theorem Outcome.error_none_right {σ ε : Type} {o : Outcome σ ε}
    {f : σ → Outcome σ ε} (h : (o.andThen f).error = none) :
    (f o.state).error = none := by
  have h1 : o.error = none := Outcome.error_none_left h
  rw [Outcome.andThen_of_error_none h1] at h
  exact h

theorem Outcome.mem_andThen_left {σ ε : Type} {o : Outcome σ ε}
    {f : σ → Outcome σ ε} {e : ε} (he : e ∈ o.events) :
    e ∈ (o.andThen f).events := by
  cases h : o.error with
  | none => rw [Outcome.andThen_of_error_none h]; exact List.mem_append_left _ he
  | some x => rw [Outcome.andThen_of_error_some h]; exact he

theorem Outcome.mem_andThen_right {σ ε : Type} {o : Outcome σ ε}
    {f : σ → Outcome σ ε} {e : ε} (h : o.error = none)
    (he : e ∈ (f o.state).events) : e ∈ (o.andThen f).events := by
  rw [Outcome.andThen_of_error_none h]
  exact List.mem_append_right _ he

theorem Outcome.mem_of_mem_andThen {σ ε : Type} {o : Outcome σ ε}
    {f : σ → Outcome σ ε} {e : ε} (h : e ∈ (o.andThen f).events) :
    e ∈ o.events ∨ (o.error = none ∧ e ∈ (f o.state).events) := by
  cases he : o.error with
  | none =>
    rw [Outcome.andThen_of_error_none he] at h
    rcases List.mem_append.mp h with h1 | h2
    · exact Or.inl h1
    · exact Or.inr ⟨rfl, h2⟩
  | some x =>
    rw [Outcome.andThen_of_error_some he] at h
    exact Or.inl h

theorem Outcome.state_andThen {σ ε : Type} {o : Outcome σ ε}
    {f : σ → Outcome σ ε} (h : o.error = none) :
    (o.andThen f).state = (f o.state).state := by
  rw [Outcome.andThen_of_error_none h]

/-! ### Structural lemmas about the py-txi backend -/

theorem PyTXI.patchGenerationConfig_fields (g : GenerationConfig) :
    (PyTXI.patchGenerationConfig g).eos_token_id = -100 ∧
    (PyTXI.patchGenerationConfig g).pad_token_id = -100 ∧
    (PyTXI.patchGenerationConfig g).temperature = 1 ∧
    (PyTXI.patchGenerationConfig g).top_p = 1 :=
  ⟨rfl, rfl, rfl, rfl⟩

theorem PyTXI.load_unsupported_eq (env : PyTXI.Env) (s : PyTXI.St)
    (h1 : s.config.task ∉ TEXT_GENERATION_TASKS)
    (h2 : s.config.task ∉ TEXT_EMBEDDING_TASKS) :
    PyTXI.load_model_from_pretrained env s =
      ⟨s, [], some (Err.notImplemented ("TXI does not support task " ++ s.config.task))⟩ := by
  unfold PyTXI.load_model_from_pretrained
  rw [if_neg h1, if_neg h2]

theorem PyTXI.load_state_config (env : PyTXI.Env) (s : PyTXI.St) :
    (PyTXI.load_model_from_pretrained env s).state.config = s.config := by
  unfold PyTXI.load_model_from_pretrained
  split_ifs <;> rfl

theorem PyTXI.load_state_checkpoint (env : PyTXI.Env) (s : PyTXI.St) :
    (PyTXI.load_model_from_pretrained env s).state.checkpointTensors =
      s.checkpointTensors := by
  unfold PyTXI.load_model_from_pretrained
  split_ifs <;> rfl

theorem PyTXI.load_no_wrote (env : PyTXI.Env) (s : PyTXI.St) (p : String)
    (ts : List TensorSpec) :
    PyTXI.Event.wroteSafetensors p ts ∉
      (PyTXI.load_model_from_pretrained env s).events := by
  unfold PyTXI.load_model_from_pretrained
  split_ifs <;> simp

theorem PyTXI.load_no_saved_gen (env : PyTXI.Env) (s : PyTXI.St) (dir : String)
    (g : GenerationConfig) :
    PyTXI.Event.savedGenerationConfig dir g ∉
      (PyTXI.load_model_from_pretrained env s).events := by
  unfold PyTXI.load_model_from_pretrained
  split_ifs <;> simp

theorem PyTXI.create_nwm_error (env : PyTXI.Env) (s : PyTXI.St) :
    (PyTXI.create_no_weights_model env s).error = none := by
  unfold PyTXI.create_no_weights_model
  split_ifs <;> rfl

theorem PyTXI.create_nwm_state (env : PyTXI.Env) (s : PyTXI.St) :
    ∃ g, (PyTXI.create_no_weights_model env s).state =
      { s with
        no_weights_model := some (s.tmpdir.name ++ "/no_weights_model")
        checkpointTensors := some env.materializedTensors
        generation_config := g } := by
  unfold PyTXI.create_no_weights_model
  split_ifs
  · exact ⟨_, rfl⟩
  · exact ⟨s.generation_config, rfl⟩

theorem PyTXI.create_nwm_wrote (env : PyTXI.Env) (s : PyTXI.St) (p : String)
    (ts : List TensorSpec)
    (h : PyTXI.Event.wroteSafetensors p ts ∈
      (PyTXI.create_no_weights_model env s).events) :
    ts = linear11StateDict := by
  unfold PyTXI.create_no_weights_model at h
  split_ifs at h <;> simp at h <;> exact h.2

theorem PyTXI.create_nwm_saved_gen (env : PyTXI.Env) (s : PyTXI.St) (dir : String)
    (g : GenerationConfig)
    (h : PyTXI.Event.savedGenerationConfig dir g ∈
      (PyTXI.create_no_weights_model env s).events) :
    g = patchGenerationConfig s.generation_config := by
  unfold PyTXI.create_no_weights_model at h
  split_ifs at h <;> simp at h
  exact h.2

theorem PyTXI.create_nwm_saved_gen_mem (env : PyTXI.Env) (s : PyTXI.St)
    (h : s.config.task ∈ TEXT_GENERATION_TASKS) :
    PyTXI.Event.savedGenerationConfig (s.tmpdir.name ++ "/no_weights_model")
        (patchGenerationConfig s.generation_config) ∈
      (PyTXI.create_no_weights_model env s).events := by
  unfold PyTXI.create_no_weights_model
  rw [if_pos h]
  simp

theorem PyTXI.prepare_gen_events (env : PyTXI.Env) (s : PyTXI.St) :
    (PyTXI.prepare_generation_config env s).events =
      [PyTXI.Event.savedGenerationConfig
        (s.volume ++ "/" ++ String.replace ("models/" ++ s.config.model) "/" "--" ++
          "/snapshots/" ++ env.snapshotRef)
        (patchGenerationConfig s.generation_config)] := rfl

theorem PyTXI.prepare_gen_state (env : PyTXI.Env) (s : PyTXI.St) :
    (PyTXI.prepare_generation_config env s).state =
      { s with generation_config := patchGenerationConfig s.generation_config } := rfl

theorem PyTXI.prepare_gen_error (env : PyTXI.Env) (s : PyTXI.St) :
    (PyTXI.prepare_generation_config env s).error = none := rfl

theorem PyTXI.cleanup_step_no_wrote (s : PyTXI.St) (p : String)
    (ts : List TensorSpec) :
    PyTXI.Event.wroteSafetensors p ts ∉ (PyTXI.tmpdirCleanupStep s).events := by
  unfold PyTXI.tmpdirCleanupStep TmpDir.cleanup
  split_ifs <;> simp

theorem PyTXI.cleanup_step_no_saved_gen (s : PyTXI.St) (dir : String)
    (g : GenerationConfig) :
    PyTXI.Event.savedGenerationConfig dir g ∉ (PyTXI.tmpdirCleanupStep s).events := by
  unfold PyTXI.tmpdirCleanupStep TmpDir.cleanup
  split_ifs <;> simp

theorem PyTXI.cleanup_step_error (s : PyTXI.St) :
    (PyTXI.tmpdirCleanupStep s).error = none := by
  unfold PyTXI.tmpdirCleanupStep TmpDir.cleanup
  split_ifs <;> rfl

theorem PyTXI.cleanup_step_state_config (s : PyTXI.St) :
    (PyTXI.tmpdirCleanupStep s).state.config = s.config := by
  unfold PyTXI.tmpdirCleanupStep TmpDir.cleanup
  split_ifs <;> rfl

theorem PyTXI.cleanup_step_state_checkpoint (s : PyTXI.St) :
    (PyTXI.tmpdirCleanupStep s).state.checkpointTensors = s.checkpointTensors := by
  unfold PyTXI.tmpdirCleanupStep TmpDir.cleanup
  split_ifs <;> rfl

theorem Outcome.events_andThen {σ ε : Type} {o : Outcome σ ε}
    {f : σ → Outcome σ ε} (h : o.error = none) :
    (o.andThen f).events = o.events ++ (f o.state).events := by
  rw [Outcome.andThen_of_error_none h]

theorem Outcome.error_andThen {σ ε : Type} {o : Outcome σ ε}
    {f : σ → Outcome σ ε} (h : o.error = none) :
    (o.andThen f).error = (f o.state).error := by
  rw [Outcome.andThen_of_error_none h]

theorem Outcome.when_pos {σ ε : Type} {b : Bool} (h : b = true)
    (f : σ → Outcome σ ε) (s : σ) : Outcome.when b f s = f s := by
  unfold Outcome.when
  rw [h]
  rfl

theorem Outcome.when_neg {σ ε : Type} {b : Bool} (h : b = false)
    (f : σ → Outcome σ ε) (s : σ) : Outcome.when b f s = Outcome.ok s := by
  unfold Outcome.when
  rw [h]
  rfl

theorem PyTXI.lars_events (env : PyTXI.Env) (s1 : PyTXI.St) :
    (PyTXI.launchAndRestoreStep env s1).events =
      (PyTXI.load_model_from_pretrained env (PyTXI.substitutedSt s1)).events := by
  unfold PyTXI.launchAndRestoreStep
  cases ho : (PyTXI.load_model_from_pretrained env (PyTXI.substitutedSt s1)).error <;>
    simp [ho]

theorem PyTXI.lars_error (env : PyTXI.Env) (s1 : PyTXI.St) :
    (PyTXI.launchAndRestoreStep env s1).error =
      (PyTXI.load_model_from_pretrained env (PyTXI.substitutedSt s1)).error := by
  unfold PyTXI.launchAndRestoreStep
  cases ho : (PyTXI.load_model_from_pretrained env (PyTXI.substitutedSt s1)).error <;>
    simp [ho]

theorem PyTXI.lars_task (env : PyTXI.Env) (s1 : PyTXI.St) :
    (PyTXI.launchAndRestoreStep env s1).state.config.task = s1.config.task := by
  unfold PyTXI.launchAndRestoreStep
  cases ho : (PyTXI.load_model_from_pretrained env (PyTXI.substitutedSt s1)).error <;>
    simp only [ho] <;>
    simp [PyTXI.load_state_config, PyTXI.substitutedSt]

theorem PyTXI.lars_checkpoint (env : PyTXI.Env) (s1 : PyTXI.St) :
    (PyTXI.launchAndRestoreStep env s1).state.checkpointTensors =
      s1.checkpointTensors := by
  unfold PyTXI.launchAndRestoreStep
  cases ho : (PyTXI.load_model_from_pretrained env (PyTXI.substitutedSt s1)).error <;>
    simp only [ho] <;>
    simp [PyTXI.load_state_checkpoint, PyTXI.substitutedSt]

theorem PyTXI.download_eq (s : PyTXI.St) :
    PyTXI.download_pretrained_model s =
      ⟨s, [PyTXI.Event.downloadedModel s.config.model s.volume], none⟩ := rfl

theorem PyTXI.lmwnw_task (env : PyTXI.Env) (s : PyTXI.St) :
    (PyTXI.load_model_with_no_weights env s).state.config.task = s.config.task := by
  unfold PyTXI.load_model_with_no_weights
  rw [Outcome.state_andThen (PyTXI.create_nwm_error env s), PyTXI.lars_task]
  obtain ⟨g, hg⟩ := PyTXI.create_nwm_state env s
  rw [hg]

theorem PyTXI.lmwnw_checkpoint (env : PyTXI.Env) (s : PyTXI.St) :
    (PyTXI.load_model_with_no_weights env s).state.checkpointTensors =
      some env.materializedTensors := by
  unfold PyTXI.load_model_with_no_weights
  rw [Outcome.state_andThen (PyTXI.create_nwm_error env s), PyTXI.lars_checkpoint]
  obtain ⟨g, hg⟩ := PyTXI.create_nwm_state env s
  rw [hg]

theorem PyTXI.create_nwm_config (env : PyTXI.Env) (s : PyTXI.St) :
    (PyTXI.create_no_weights_model env s).state.config = s.config := by
  unfold PyTXI.create_no_weights_model
  split_ifs <;> rfl

theorem PyTXI.load_error_unsupported_of_task (env : PyTXI.Env) (s : PyTXI.St)
    (t : String) (ht : s.config.task = t)
    (h1 : t ∉ TEXT_GENERATION_TASKS) (h2 : t ∉ TEXT_EMBEDDING_TASKS) :
    (PyTXI.load_model_from_pretrained env s).error =
      some (Err.notImplemented ("TXI does not support task " ++ t)) := by
  subst ht
  rw [PyTXI.load_unsupported_eq env s h1 h2]

theorem PyTXI.lmwnw_error_unsupported (env : PyTXI.Env) (s : PyTXI.St)
    (h1 : s.config.task ∉ TEXT_GENERATION_TASKS)
    (h2 : s.config.task ∉ TEXT_EMBEDDING_TASKS) :
    (PyTXI.load_model_with_no_weights env s).error =
      some (Err.notImplemented ("TXI does not support task " ++ s.config.task)) := by
  unfold PyTXI.load_model_with_no_weights
  rw [Outcome.error_andThen (PyTXI.create_nwm_error env s), PyTXI.lars_error]
  refine PyTXI.load_error_unsupported_of_task env _ s.config.task ?_ h1 h2
  show (PyTXI.create_no_weights_model env s).state.config.task = s.config.task
  rw [PyTXI.create_nwm_config]

theorem PyTXI.lmwnw_wrote (env : PyTXI.Env) (s : PyTXI.St) (p : String)
    (ts : List TensorSpec)
    (h : PyTXI.Event.wroteSafetensors p ts ∈
      (PyTXI.load_model_with_no_weights env s).events) :
    ts = linear11StateDict := by
  unfold PyTXI.load_model_with_no_weights at h
  rcases Outcome.mem_of_mem_andThen h with h1 | ⟨_, h2⟩
  · exact PyTXI.create_nwm_wrote env s p ts h1
  · rw [PyTXI.lars_events] at h2
    exact absurd h2 (PyTXI.load_no_wrote env _ p ts)

theorem PyTXI.lmwnw_saved_gen (env : PyTXI.Env) (s : PyTXI.St) (dir : String)
    (g : GenerationConfig)
    (h : PyTXI.Event.savedGenerationConfig dir g ∈
      (PyTXI.load_model_with_no_weights env s).events) :
    g = PyTXI.patchGenerationConfig s.generation_config := by
  unfold PyTXI.load_model_with_no_weights at h
  rcases Outcome.mem_of_mem_andThen h with h1 | ⟨_, h2⟩
  · exact PyTXI.create_nwm_saved_gen env s dir g h1
  · rw [PyTXI.lars_events] at h2
    exact absurd h2 (PyTXI.load_no_saved_gen env _ dir g)

theorem PyTXI.lmwnw_saved_gen_mem (env : PyTXI.Env) (s : PyTXI.St)
    (h : s.config.task ∈ TEXT_GENERATION_TASKS) :
    PyTXI.Event.savedGenerationConfig (s.tmpdir.name ++ "/no_weights_model")
        (PyTXI.patchGenerationConfig s.generation_config) ∈
      (PyTXI.load_model_with_no_weights env s).events := by
  unfold PyTXI.load_model_with_no_weights
  exact Outcome.mem_andThen_left (PyTXI.create_nwm_saved_gen_mem env s h)

theorem PyTXI.ppath_task (env : PyTXI.Env) (s : PyTXI.St) :
    (PyTXI.pretrainedPathStep env s).state.config.task = s.config.task := by
  unfold PyTXI.pretrainedPathStep
  rw [PyTXI.download_eq, Outcome.mk_none_andThen]
  by_cases h : s.config.task ∈ TEXT_GENERATION_TASKS
  · rw [Outcome.when_pos (decide_eq_true h), Outcome.state_andThen (PyTXI.prepare_gen_error env s),
      PyTXI.load_state_config, PyTXI.prepare_gen_state]
  · rw [Outcome.when_neg (decide_eq_false h), Outcome.ok_andThen]
    rw [PyTXI.load_state_config]

theorem PyTXI.ppath_error_unsupported (env : PyTXI.Env) (s : PyTXI.St)
    (h1 : s.config.task ∉ TEXT_GENERATION_TASKS)
    (h2 : s.config.task ∉ TEXT_EMBEDDING_TASKS) :
    (PyTXI.pretrainedPathStep env s).error =
      some (Err.notImplemented ("TXI does not support task " ++ s.config.task)) := by
  unfold PyTXI.pretrainedPathStep
  rw [PyTXI.download_eq, Outcome.mk_none_andThen]
  rw [Outcome.when_neg (decide_eq_false h1), Outcome.ok_andThen]
  rw [PyTXI.load_unsupported_eq env s h1 h2]

theorem PyTXI.ppath_no_wrote (env : PyTXI.Env) (s : PyTXI.St) (p : String)
    (ts : List TensorSpec) :
    PyTXI.Event.wroteSafetensors p ts ∉ (PyTXI.pretrainedPathStep env s).events := by
  intro h
  unfold PyTXI.pretrainedPathStep at h
  rw [PyTXI.download_eq, Outcome.mk_none_andThen] at h
  rcases List.mem_append.mp h with h1 | h2
  · simp at h1
  · rcases Outcome.mem_of_mem_andThen h2 with h3 | ⟨_, h4⟩
    · by_cases hg : s.config.task ∈ TEXT_GENERATION_TASKS
      · rw [Outcome.when_pos (decide_eq_true hg), PyTXI.prepare_gen_events] at h3
        simp at h3
      · rw [Outcome.when_neg (decide_eq_false hg)] at h3
        simp [Outcome.ok] at h3
    · exact absurd h4 (PyTXI.load_no_wrote env _ p ts)

theorem PyTXI.ppath_saved_gen (env : PyTXI.Env) (s : PyTXI.St) (dir : String)
    (g : GenerationConfig)
    (h : PyTXI.Event.savedGenerationConfig dir g ∈
      (PyTXI.pretrainedPathStep env s).events) :
    g = PyTXI.patchGenerationConfig s.generation_config := by
  unfold PyTXI.pretrainedPathStep at h
  rw [PyTXI.download_eq, Outcome.mk_none_andThen] at h
  rcases List.mem_append.mp h with h1 | h2
  · simp at h1
  · rcases Outcome.mem_of_mem_andThen h2 with h3 | ⟨_, h4⟩
    · by_cases hg : s.config.task ∈ TEXT_GENERATION_TASKS
      · rw [Outcome.when_pos (decide_eq_true hg), PyTXI.prepare_gen_events] at h3
        simp at h3
        exact h3.2
      · rw [Outcome.when_neg (decide_eq_false hg)] at h3
        simp [Outcome.ok] at h3
    · exact absurd h4 (PyTXI.load_no_saved_gen env _ dir g)

theorem PyTXI.ppath_saved_gen_mem (env : PyTXI.Env) (s : PyTXI.St)
    (h : s.config.task ∈ TEXT_GENERATION_TASKS) :
    PyTXI.Event.savedGenerationConfig
        (s.volume ++ "/" ++ String.replace ("models/" ++ s.config.model) "/" "--" ++
          "/snapshots/" ++ env.snapshotRef)
        (PyTXI.patchGenerationConfig s.generation_config) ∈
      (PyTXI.pretrainedPathStep env s).events := by
  unfold PyTXI.pretrainedPathStep
  rw [PyTXI.download_eq, Outcome.mk_none_andThen]
  refine List.mem_append_right _ (Outcome.mem_andThen_left ?_)
  rw [Outcome.when_pos (decide_eq_true h), PyTXI.prepare_gen_events]
  exact List.mem_singleton_self _

theorem PyTXI.init_eq_cons (env : PyTXI.Env) (config : PyTXI.Config)
    (kv : String × String) (tl : List (String × String))
    (hv : config.volumes = kv :: tl) :
    PyTXI.init env config =
      (if config.no_weights then
        PyTXI.load_model_with_no_weights env
          { PyTXI.freshSt env config with volume := kv.1 }
      else
        PyTXI.pretrainedPathStep env
          { PyTXI.freshSt env config with volume := kv.1 }).andThen
        PyTXI.tmpdirCleanupStep := by
  unfold PyTXI.init
  rw [hv]
  rfl

theorem PyTXI.init_wrote (env : PyTXI.Env) (config : PyTXI.Config) (p : String)
    (ts : List TensorSpec)
    (h : PyTXI.Event.wroteSafetensors p ts ∈ (PyTXI.init env config).events) :
    ts = linear11StateDict := by
  cases hv : config.volumes with
  | nil =>
    unfold PyTXI.init at h
    rw [hv] at h
    simp at h
  | cons kv tl =>
    rw [PyTXI.init_eq_cons env config kv tl hv] at h
    rcases Outcome.mem_of_mem_andThen h with hm | ⟨_, hm2⟩
    · by_cases hnw : config.no_weights
      · rw [if_pos hnw] at hm
        exact PyTXI.lmwnw_wrote env _ p ts hm
      · rw [if_neg hnw] at hm
        exact absurd hm (PyTXI.ppath_no_wrote env _ p ts)
    · exact absurd hm2 (PyTXI.cleanup_step_no_wrote _ p ts)

theorem PyTXI.init_checkpoint (env : PyTXI.Env) (config : PyTXI.Config)
    (hnw : config.no_weights = true) (h3 : config.volumes ≠ []) :
    (PyTXI.init env config).state.checkpointTensors =
      some env.materializedTensors := by
  obtain ⟨kv, tl, hv⟩ : ∃ kv tl, config.volumes = kv :: tl := by
    cases hcv : config.volumes with
    | nil => exact absurd hcv h3
    | cons a b => exact ⟨a, b, rfl⟩
  rw [PyTXI.init_eq_cons env config kv tl hv, if_pos hnw]
  cases he : (PyTXI.load_model_with_no_weights env
      { PyTXI.freshSt env config with volume := kv.1 }).error with
  | none =>
    rw [Outcome.state_andThen he, PyTXI.cleanup_step_state_checkpoint,
      PyTXI.lmwnw_checkpoint]
  | some e =>
    rw [Outcome.andThen_of_error_some he]
    exact PyTXI.lmwnw_checkpoint env _

/-! ### Claim theorems C1, C3, C5 -/

/-- Claim C1: the claim asserts that the temporary substitution of
`config.model` and `config.volumes` made for the no-weights server launch is
restored on every exit path, including when `load_model_from_pretrained`
raises.  The code restores only after a successful launch (no try/finally):
at the concrete failing input below — `no_weights = true` with a task TXI
does not support, so the launch raises `NotImplementedError` — construction
propagates the exception while `config.model` is left as
"/data/no_weights_model" and `config.volumes` as the substituted temporary
directory.  On the successful input `txiSampleConfig` both fields are
restored, as the claim states. -/
theorem c1_swap_not_restored_on_launch_exception :
    txiUnsupportedNoWeightsConfig.model = "gpt2" ∧
    txiUnsupportedNoWeightsConfig.no_weights = true ∧
    (PyTXI.init txiSampleEnv txiUnsupportedNoWeightsConfig).error.isSome = true ∧
    (PyTXI.init txiSampleEnv txiUnsupportedNoWeightsConfig).state.config.model =
      "/data/no_weights_model" ∧
    (PyTXI.init txiSampleEnv txiUnsupportedNoWeightsConfig).state.config.volumes =
      [(txiSampleEnv.tmpdirName, "bind=/data,mode=rw")] ∧
    (PyTXI.init txiSampleEnv txiSampleConfig).error = none ∧
    (PyTXI.init txiSampleEnv txiSampleConfig).state.config.model = "gpt2" ∧
    (PyTXI.init txiSampleEnv txiSampleConfig).state.config.volumes =
      txiSampleConfig.volumes := by
  decide

/-- Claim C3 (counterexample): the claim says construction succeeds for a
task that is neither text generation nor text embedding, the
`NotImplementedError` being deferred to call time.  In fact `__init__` calls
`load_model_from_pretrained`, which raises `NotImplementedError` during
construction, on both the pretrained and the no-weights path. -/
theorem c3_counterexample_raises_at_construction :
    (PyTXI.init txiSampleEnv txiUnsupportedPretrainedConfig).error =
      some (Err.notImplemented "TXI does not support task image-classification") ∧
    (PyTXI.init txiSampleEnv txiUnsupportedNoWeightsConfig).error =
      some (Err.notImplemented "TXI does not support task image-classification") := by
  decide

/-- Claim C3 (amended): for every py-txi config whose task is neither a
text-generation nor a text-embedding task (and with a nonempty volumes
dict), construction itself raises `NotImplementedError` — the error is not
deferred to call time — and `prepare_inputs` on the constructed state
likewise raises `NotImplementedError` (it mutates nothing: it only returns
an error). -/
theorem c3_unsupported_task_raises_during_construction (env : PyTXI.Env)
    (config : PyTXI.Config)
    (h1 : config.task ∉ TEXT_GENERATION_TASKS)
    (h2 : config.task ∉ TEXT_EMBEDDING_TASKS)
    (h3 : config.volumes ≠ []) :
    (PyTXI.init env config).error =
      some (Err.notImplemented ("TXI does not support task " ++ config.task)) ∧
    ∀ decoded, PyTXI.prepare_inputs (PyTXI.init env config).state decoded =
      Except.error (Err.notImplemented ("TXI does not support task " ++ config.task)) := by
  obtain ⟨kv, tl, hv⟩ : ∃ kv tl, config.volumes = kv :: tl := by
    cases hcv : config.volumes with
    | nil => exact absurd hcv h3
    | cons a b => exact ⟨a, b, rfl⟩
  rw [PyTXI.init_eq_cons env config kv tl hv]
  set s1 : PyTXI.St := { PyTXI.freshSt env config with volume := kv.1 } with hs1
  have hcfg : s1.config.task = config.task := rfl
  have h1' : s1.config.task ∉ TEXT_GENERATION_TASKS := by rw [hcfg]; exact h1
  have h2' : s1.config.task ∉ TEXT_EMBEDDING_TASKS := by rw [hcfg]; exact h2
  by_cases hnw : config.no_weights
  · rw [if_pos hnw]
    have herr := PyTXI.lmwnw_error_unsupported env s1 h1' h2'
    rw [Outcome.andThen_of_error_some herr]
    constructor
    · rw [herr, hcfg]
    · intro decoded
      have ht := PyTXI.lmwnw_task env s1
      unfold PyTXI.prepare_inputs
      rw [ht, hcfg]
      rw [if_neg h1, if_neg h2]
  · rw [if_neg hnw]
    have herr := PyTXI.ppath_error_unsupported env s1 h1' h2'
    rw [Outcome.andThen_of_error_some herr]
    constructor
    · rw [herr, hcfg]
    · intro decoded
      have ht := PyTXI.ppath_task env s1
      unfold PyTXI.prepare_inputs
      rw [ht, hcfg]
      rw [if_neg h1, if_neg h2]

/-- Claim C3 (witness): the amended claim evaluated at the concrete
unsupported-task configuration. -/
theorem c3_unsupported_task_witness :
    (PyTXI.init txiSampleEnv txiUnsupportedPretrainedConfig).error =
      some (Err.notImplemented "TXI does not support task image-classification") ∧
    ∀ decoded,
      PyTXI.prepare_inputs
          (PyTXI.init txiSampleEnv txiUnsupportedPretrainedConfig).state decoded =
        Except.error (Err.notImplemented "TXI does not support task image-classification") :=
  c3_unsupported_task_raises_during_construction txiSampleEnv
    txiUnsupportedPretrainedConfig (by decide) (by decide) (by decide)

/-- Claim C5: on every py-txi construction whose task is a text-generation
task, every generation config persisted during construction (on either the
pretrained or the no-weights path) carries `eos_token_id = -100`,
`pad_token_id = -100`, `temperature = 1` and `top_p = 1`, and at least one
generation config is persisted. -/
theorem c5_generation_config_patched (env : PyTXI.Env) (config : PyTXI.Config)
    (hg : config.task ∈ TEXT_GENERATION_TASKS)
    (h3 : config.volumes ≠ []) :
    (∀ dir g, PyTXI.Event.savedGenerationConfig dir g ∈ (PyTXI.init env config).events →
       g.eos_token_id = -100 ∧ g.pad_token_id = -100 ∧
       g.temperature = 1 ∧ g.top_p = 1) ∧
    (∃ dir g, PyTXI.Event.savedGenerationConfig dir g ∈ (PyTXI.init env config).events) := by
  obtain ⟨kv, tl, hv⟩ : ∃ kv tl, config.volumes = kv :: tl := by
    cases hcv : config.volumes with
    | nil => exact absurd hcv h3
    | cons a b => exact ⟨a, b, rfl⟩
  rw [PyTXI.init_eq_cons env config kv tl hv]
  constructor
  · intro dir g hmem
    rcases Outcome.mem_of_mem_andThen hmem with hm | ⟨_, hm2⟩
    · by_cases hnw : config.no_weights
      · rw [if_pos hnw] at hm
        rw [PyTXI.lmwnw_saved_gen env _ dir g hm]
        exact PyTXI.patchGenerationConfig_fields _
      · rw [if_neg hnw] at hm
        rw [PyTXI.ppath_saved_gen env _ dir g hm]
        exact PyTXI.patchGenerationConfig_fields _
    · exact absurd hm2 (PyTXI.cleanup_step_no_saved_gen _ dir g)
  · by_cases hnw : config.no_weights
    · rw [if_pos hnw]
      exact ⟨_, _, Outcome.mem_andThen_left
        (PyTXI.lmwnw_saved_gen_mem env { PyTXI.freshSt env config with volume := kv.1 } hg)⟩
    · rw [if_neg hnw]
      exact ⟨_, _, Outcome.mem_andThen_left
        (PyTXI.ppath_saved_gen_mem env { PyTXI.freshSt env config with volume := kv.1 } hg)⟩

/-- Claim C5 (witness): the patched-generation-config claim evaluated at the
concrete text-generation no-weights configuration. -/
theorem c5_generation_config_witness :
    (∀ dir g, PyTXI.Event.savedGenerationConfig dir g ∈
        (PyTXI.init txiSampleEnv txiSampleConfig).events →
       g.eos_token_id = -100 ∧ g.pad_token_id = -100 ∧
       g.temperature = 1 ∧ g.top_p = 1) ∧
    (∃ dir g, PyTXI.Event.savedGenerationConfig dir g ∈
        (PyTXI.init txiSampleEnv txiSampleConfig).events) :=
  c5_generation_config_patched txiSampleEnv txiSampleConfig (by decide) (by decide)

/-! ### Claim theorems C2 and C10 -/

/-- Claim C2: the claim (and the source's own `-> TrainerState` annotation)
says `PyTorchBackend.train` returns the final trainer state.  The method
body runs the training loop — the `ranTraining` event below carries the
final state the external trainer reached — but ends without a return
statement, so the value returned to the caller is Python's `None` (the
second component is `none`), for every input. -/
theorem c2_train_returns_none (env : PyTorch.Env) (s : PyTorch.St) :
    (PyTorch.train env s () () () ()).2 = none ∧
    PyTorch.Event.ranTraining env.trainerFinalState ∈
      (PyTorch.train env s () () () ()).1.events := by
  refine ⟨rfl, ?_⟩
  unfold PyTorch.train
  simp

theorem lookup_filter_keeps (l : List (String × KwVal)) (p : String × KwVal → Bool)
    (k : String) (hk : ∀ v, p (k, v) = true) :
    (l.filter p).lookup k = l.lookup k := by
  induction l with
  | nil => rfl
  | cons kv tl ih =>
    obtain ⟨k1, v1⟩ := kv
    rcases hp : p (k1, v1) with _ | _
    · have hne : (k == k1) = false := by
        rcases hkk : k == k1 with _ | _
        · rfl
        · exfalso
          have hke : k = k1 := beq_iff_eq.mp hkk
          have hkv := hk v1
          rw [hke] at hkv
          rw [hkv] at hp
          cases hp
      rw [List.filter_cons_of_neg (by rw [hp]; intro hc; cases hc)]
      rw [ih, List.lookup_cons, hne]
    · rw [List.filter_cons_of_pos hp]
      rw [List.lookup_cons, List.lookup_cons]
      rcases hkk : k == k1 with _ | _
      · exact ih
      · rfl

/-- Claim C10: `prefill` and `generate` forward to the server client exactly
the `do_sample` entry (default `False`) and the `max_new_tokens` entry
(default `None`) of the kwargs dict; both methods build the same call, the
call is unchanged when kwargs is restricted to those two keys, and adding
any entry under a different key leaves the call unchanged. -/
theorem c10_prefill_generate_forward_two_kwargs (inputs : PyTXI.Prepared)
    (kwargs : List (String × KwVal)) :
    PyTXI.prefill inputs kwargs = PyTXI.generate inputs kwargs ∧
    (PyTXI.prefill inputs kwargs).do_sample =
      (kwargs.lookup "do_sample").getD (KwVal.bool false) ∧
    (PyTXI.prefill inputs kwargs).max_new_tokens =
      (kwargs.lookup "max_new_tokens").getD KwVal.noneVal ∧
    PyTXI.prefill inputs kwargs =
      PyTXI.prefill inputs
        (kwargs.filter fun kv => kv.1 == "do_sample" || kv.1 == "max_new_tokens") ∧
    (∀ k v, k ≠ "do_sample" → k ≠ "max_new_tokens" →
      PyTXI.prefill inputs ((k, v) :: kwargs) = PyTXI.prefill inputs kwargs) := by
  refine ⟨rfl, rfl, rfl, ?_, ?_⟩
  · unfold PyTXI.prefill
    rw [lookup_filter_keeps kwargs _ "do_sample" (fun v => rfl),
      lookup_filter_keeps kwargs _ "max_new_tokens" (fun v => rfl)]
  · intro k v hk1 hk2
    unfold PyTXI.prefill
    have h1 : ("do_sample" == k) = false := by
      simpa using fun h => hk1 h.symm
    have h2 : ("max_new_tokens" == k) = false := by
      simpa using fun h => hk2 h.symm
    rw [List.lookup_cons, List.lookup_cons, h1, h2]

/-- Claim C6: deepspeed inference combined with any quantization (a
configured scheme, or a quant method inside the pretrained config) makes
construction raise `ValueError` before anything else happens: the event
trace of `__init__` is empty — no quantization processing, no temporary
directory, no model loading. -/
theorem c6_deepspeed_quantization_fail_fast (env : PyTorch.Env)
    (config : PyTorch.Config) (pc : Option PyTorch.PretrainedConfig)
    (h1 : config.deepspeed_inference = true)
    (h2 : PyTorch.is_quantized config pc = true) :
    (∃ msg, (PyTorch.init env config pc).error = some (Err.valueError msg)) ∧
    (PyTorch.init env config pc).events = [] := by
  have hds : PyTorch.deepspeedQuantCheckStep (PyTorch.freshSt config pc) =
      ⟨PyTorch.freshSt config pc, [],
       some (Err.valueError "Deepspeed-Inference is not compatible with Transformers quantization")⟩ := by
    unfold PyTorch.deepspeedQuantCheckStep
    rw [show (PyTorch.freshSt config pc).config = config from rfl,
      show (PyTorch.freshSt config pc).pretrained_config = pc from rfl, h1, h2]
    rfl
  unfold PyTorch.init PyTorch.validate_library
  split_ifs
  · rw [Outcome.ok_andThen, hds, Outcome.mk_some_andThen]
    exact ⟨⟨_, rfl⟩, rfl⟩
  · rw [Outcome.ok_andThen, hds, Outcome.mk_some_andThen]
    exact ⟨⟨_, rfl⟩, rfl⟩
  · rw [Outcome.ok_andThen, hds, Outcome.mk_some_andThen]
    exact ⟨⟨_, rfl⟩, rfl⟩
  · rw [Outcome.mk_some_andThen]
    exact ⟨⟨_, rfl⟩, rfl⟩

/-- Claim C6 (witness): the fail-fast check evaluated at the concrete
deepspeed + gptq configuration. -/
theorem c6_deepspeed_quantization_witness :
    (∃ msg, (PyTorch.init ptSampleEnv ptDeepspeedQuantConfig none).error =
      some (Err.valueError msg)) ∧
    (PyTorch.init ptSampleEnv ptDeepspeedQuantConfig none).events = [] :=
  c6_deepspeed_quantization_fail_fast ptSampleEnv ptDeepspeedQuantConfig none
    (by decide) (by decide)

/-- Claim C8 (counterexample): the claim says no explicit `.to(device)` move
is ever performed when `config.device_map` is set.  The timm branch of
`load_model_from_pretrained` ignores `device_map` entirely and moves the
model whenever the device is not cpu: at this concrete state (timm library,
`device_map = "auto"`, device cuda) a `movedToDevice "cuda"` effect is
performed. -/
theorem c8_counterexample_timm_moves_despite_device_map :
    ptTimmDeviceMapSt.config.device_map = some "auto" ∧
    PyTorch.Event.movedToDevice "cuda" ∈
      (PyTorch.load_model_from_pretrained ptSampleEnv ptTimmDeviceMapSt).events := by
  refine ⟨rfl, ?_⟩
  rw [show (PyTorch.load_model_from_pretrained ptSampleEnv ptTimmDeviceMapSt).events =
    [PyTorch.Event.loadedTimmModel "gpt2", PyTorch.Event.movedToDevice "cuda"] from rfl]
  simp

/-- Claim C8 (amended): outside the timm branch, the claim holds — when a
device map is requested, `load_model_from_pretrained` performs no explicit
`.to(device)` move (diffusers, quantized and plain transformers paths), and
quantized loads never perform an explicit move; the timm branch however
ignores `device_map` and always moves to a non-cpu device. -/
theorem c8_no_explicit_move_with_device_map (env : PyTorch.Env)
    (s : PyTorch.St) (h1 : s.config.library ≠ "timm") :
    (s.config.device_map.isSome = true →
      ∀ d, PyTorch.Event.movedToDevice d ∉
        (PyTorch.load_model_from_pretrained env s).events) ∧
    (s.config.library ≠ "diffusers" →
      PyTorch.is_quantized s.config s.pretrained_config = true →
      ∀ d, PyTorch.Event.movedToDevice d ∉
        (PyTorch.load_model_from_pretrained env s).events) := by
  have hmapne : s.config.device_map.isSome = true → s.config.device_map ≠ none := by
    intro hmap hcontra
    rw [hcontra] at hmap
    cases hmap
  constructor
  · intro hmap d hmem
    unfold PyTorch.load_model_from_pretrained at hmem
    rw [if_neg h1] at hmem
    by_cases hd : s.config.library = "diffusers"
    · rw [if_pos hd, Outcome.mk_none_andThen] at hmem
      rw [if_neg (fun hand => hmapne hmap hand.1)] at hmem
      simp [Outcome.ok] at hmem
    · rw [if_neg hd] at hmem
      by_cases hq : PyTorch.is_quantized s.config s.pretrained_config = true
      · rw [if_pos hq] at hmem
        simp at hmem
      · rw [if_neg hq, if_pos hmap] at hmem
        simp at hmem
  · intro hd hq d hmem
    unfold PyTorch.load_model_from_pretrained at hmem
    rw [if_neg h1, if_neg hd, if_pos hq] at hmem
    simp at hmem

/-- Claim C8 (witness): the amended claim evaluated at a concrete
transformers configuration with an automatic device map, and at a concrete
quantized configuration. -/
theorem c8_no_explicit_move_witness :
    (∀ d, PyTorch.Event.movedToDevice d ∉
      (PyTorch.load_model_from_pretrained ptSampleEnv
        (PyTorch.freshSt { ptSampleConfig with device_map := some "auto" } none)).events) ∧
    (∀ d, PyTorch.Event.movedToDevice d ∉
      (PyTorch.load_model_from_pretrained ptSampleEnv
        (PyTorch.freshSt { ptSampleConfig with quantization_scheme := some "gptq" } none)).events) :=
  ⟨(c8_no_explicit_move_with_device_map ptSampleEnv
      (PyTorch.freshSt { ptSampleConfig with device_map := some "auto" } none)
      (by decide)).1 (by decide),
   (c8_no_explicit_move_with_device_map ptSampleEnv
      (PyTorch.freshSt { ptSampleConfig with quantization_scheme := some "gptq" } none)
      (by decide)).2 (by decide) (by decide)⟩

theorem TmpDir.cleanup_fst (t : TmpDir) : (t.cleanup).1 = ⟨t.name, false, false⟩ := by
  unfold TmpDir.cleanup
  split_ifs <;> rfl

theorem TmpDir.cleanup_dead (nm : String) :
    (TmpDir.mk nm false false).cleanup = (⟨nm, false, false⟩, false) := rfl

theorem PyTorch.clean_pt_spec (u : PyTorch.St) :
    (PyTorch.clean u).error = none ∧
    (PyTorch.clean u).state =
      { u with tmpdir := u.tmpdir.map fun t => ⟨t.name, false, false⟩,
               hasModelAttr := false } := by
  obtain ⟨c, pcf, rq, td, nw, ck, hma, md⟩ := u
  rcases td with _ | t
  · rcases hma with _ | _ <;>
      by_cases hd : c.device = "cuda" <;>
      simp [PyTorch.clean, Outcome.andThen, Outcome.ok, hd, Option.map]
  · rcases hcl : t.cleanup with ⟨t2, removed⟩
    have ht2 : t2 = ⟨t.name, false, false⟩ := by
      have h := TmpDir.cleanup_fst t
      rw [hcl] at h
      exact h
    subst ht2
    rcases hma with _ | _ <;>
      by_cases hd : c.device = "cuda" <;>
      simp [PyTorch.clean, hcl, Outcome.andThen, Outcome.ok, hd, Option.map]

theorem PyTorch.clean_pt_second_run (u : PyTorch.St)
    (htd : u.tmpdir = none ∨ ∃ nm, u.tmpdir = some ⟨nm, false, false⟩)
    (hm : u.hasModelAttr = false) :
    (PyTorch.clean u).state = u ∧
    ((PyTorch.clean u).events.filter PyTorch.Event.isResourceRelease) = [] := by
  obtain ⟨c, pcf, rq, td, nw, ck, hma, md⟩ := u
  simp only at hm
  subst hm
  rcases htd with h0 | ⟨nm, h0⟩ <;> simp only at h0 <;> subst h0 <;>
    by_cases hd : c.device = "cuda" <;>
    simp [PyTorch.clean, TmpDir.cleanup, Outcome.andThen, Outcome.ok, hd,
      PyTorch.Event.isResourceRelease]

theorem PyTXI.clean_spec (u : PyTXI.St) :
    (PyTXI.clean u).error = none ∧
    (PyTXI.clean u).state =
      { u with pretrained_model := none,
               tmpdir := if u.hasTmpdirAttr then ⟨u.tmpdir.name, false, false⟩
                         else u.tmpdir } := by
  obtain ⟨c, td, hta, vol, gc0, nw, ck, pm⟩ := u
  rcases hcl : td.cleanup with ⟨t2, removed⟩
  have ht2 : t2 = ⟨td.name, false, false⟩ := by
    have h := TmpDir.cleanup_fst td
    rw [hcl] at h
    exact h
  subst ht2
  rcases pm with _ | h <;> rcases hta with _ | _ <;>
    simp [PyTXI.clean, PyTXI.baseClean, hcl, Outcome.andThen, Outcome.ok]

theorem PyTXI.clean_second_run (u : PyTXI.St)
    (hp : u.pretrained_model = none)
    (htd : u.hasTmpdirAttr = true → u.tmpdir.finalizerAttached = false ∧
      u.tmpdir.dirExists = false) :
    (PyTXI.clean u).state = u ∧
    ((PyTXI.clean u).events.filter PyTXI.Event.isResourceRelease) = [] := by
  obtain ⟨c, td, hta, vol, gc0, nw, ck, pm⟩ := u
  simp only at hp
  subst hp
  rcases hta with _ | _
  · simp [PyTXI.clean, PyTXI.baseClean, Outcome.andThen, Outcome.ok,
      PyTXI.Event.isResourceRelease]
  · obtain ⟨hf, he⟩ := htd rfl
    simp only at hf he
    obtain ⟨nm, f, d⟩ := td
    simp only at hf he
    subst hf
    subst he
    simp [PyTXI.clean, PyTXI.baseClean, TmpDir.cleanup, Outcome.andThen, Outcome.ok,
      PyTXI.Event.isResourceRelease]

theorem PyTorch.validate_state (s : PyTorch.St) :
    (PyTorch.validate_library s).state = s := by
  unfold PyTorch.validate_library
  split_ifs <;> rfl

theorem PyTorch.validate_events (s : PyTorch.St) :
    (PyTorch.validate_library s).events = [] := by
  unfold PyTorch.validate_library
  split_ifs <;> rfl

theorem PyTorch.ds_check_state (s : PyTorch.St) :
    (PyTorch.deepspeedQuantCheckStep s).state = s := by
  unfold PyTorch.deepspeedQuantCheckStep
  split_ifs <;> rfl

theorem PyTorch.ds_check_events (s : PyTorch.St) :
    (PyTorch.deepspeedQuantCheckStep s).events = [] := by
  unfold PyTorch.deepspeedQuantCheckStep
  split_ifs <;> rfl

theorem PyTorch.quant_state_config (s : PyTorch.St) :
    (PyTorch.quantStep s).state.config = s.config ∧
    (PyTorch.quantStep s).state.pretrained_config = s.pretrained_config ∧
    (PyTorch.quantStep s).state.checkpointTensors = s.checkpointTensors := by
  unfold PyTorch.quantStep Outcome.when PyTorch.process_quantization_config
  split_ifs <;> exact ⟨rfl, rfl, rfl⟩

theorem PyTorch.quant_no_wrote (s : PyTorch.St) (p : String) (ts : List TensorSpec) :
    PyTorch.Event.wroteSafetensors p ts ∉ (PyTorch.quantStep s).events := by
  unfold PyTorch.quantStep Outcome.when PyTorch.process_quantization_config
  split_ifs <;> simp [Outcome.ok]

theorem PyTorch.threads_state (s : PyTorch.St) :
    (PyTorch.threadsStep s).state = s := rfl

theorem PyTorch.threads_no_wrote (s : PyTorch.St) (p : String) (ts : List TensorSpec) :
    PyTorch.Event.wroteSafetensors p ts ∉ (PyTorch.threadsStep s).events := by
  unfold PyTorch.threadsStep
  rcases s.config.inter_op_num_threads with _ | n <;>
    rcases s.config.intra_op_num_threads with _ | m <;>
    simp

theorem PyTorch.autocast_state (s : PyTorch.St) :
    (PyTorch.autocastStep s).state = s := by
  unfold PyTorch.autocastStep
  split_ifs
  · rw [Outcome.mk_none_andThen]
    rcases s.config.autocast_dtype with _ | d <;> split_ifs <;> rfl
  · rfl

theorem PyTorch.autocast_no_wrote (s : PyTorch.St) (p : String) (ts : List TensorSpec) :
    PyTorch.Event.wroteSafetensors p ts ∉ (PyTorch.autocastStep s).events := by
  unfold PyTorch.autocastStep
  split_ifs
  · rw [Outcome.mk_none_andThen]
    rcases s.config.autocast_dtype with _ | d <;> split_ifs <;> simp [Outcome.ok]
  · simp [Outcome.ok]

theorem PyTorch.tmpdirStep_state (env : PyTorch.Env) (s : PyTorch.St) :
    (PyTorch.tmpdirStep env s).state =
      { s with tmpdir := some ⟨env.tmpdirName, true, true⟩ } := rfl

theorem PyTorch.tmpdirStep_no_wrote (env : PyTorch.Env) (s : PyTorch.St)
    (p : String) (ts : List TensorSpec) :
    PyTorch.Event.wroteSafetensors p ts ∉ (PyTorch.tmpdirStep env s).events := by
  simp [PyTorch.tmpdirStep]

theorem PyTorch.load_pt_state_config (env : PyTorch.Env) (s : PyTorch.St) :
    (PyTorch.load_model_from_pretrained env s).state.config = s.config := by
  unfold PyTorch.load_model_from_pretrained PyTorch.moveToDevice
  split_ifs <;>
    first
    | rfl
    | (rw [Outcome.mk_none_andThen]; split_ifs <;> rfl)

theorem PyTorch.load_pt_state_checkpoint (env : PyTorch.Env) (s : PyTorch.St) :
    (PyTorch.load_model_from_pretrained env s).state.checkpointTensors =
      s.checkpointTensors := by
  unfold PyTorch.load_model_from_pretrained PyTorch.moveToDevice
  split_ifs <;>
    first
    | rfl
    | (rw [Outcome.mk_none_andThen]; split_ifs <;> rfl)

theorem PyTorch.load_pt_no_wrote (env : PyTorch.Env) (s : PyTorch.St)
    (p : String) (ts : List TensorSpec) :
    PyTorch.Event.wroteSafetensors p ts ∉
      (PyTorch.load_model_from_pretrained env s).events := by
  unfold PyTorch.load_model_from_pretrained PyTorch.moveToDevice
  split_ifs <;>
    first
    | (rw [Outcome.mk_none_andThen]; split_ifs <;> simp [Outcome.ok])
    | simp [Outcome.ok]

theorem PyTorch.create_pt_state_config (env : PyTorch.Env) (s : PyTorch.St) :
    (PyTorch.create_no_weights_model env s).state.config = s.config := by
  unfold PyTorch.create_no_weights_model
  rcases hpc : s.pretrained_config with _ | pc
  · rfl
  · rcases htd : s.tmpdir with _ | t
    · rfl
    · split_ifs
      · rcases hrq : s.resolvedQuant with _ | q <;> simp [hrq]
      · rfl

theorem PyTorch.create_pt_wrote (env : PyTorch.Env) (s : PyTorch.St)
    (p : String) (ts : List TensorSpec)
    (h : PyTorch.Event.wroteSafetensors p ts ∈
      (PyTorch.create_no_weights_model env s).events) :
    ts = PyTorch.noWeightsStateDict env s.config s.pretrained_config := by
  unfold PyTorch.create_no_weights_model at h
  rcases hpc : s.pretrained_config with _ | pc
  · rw [hpc] at h
    simp at h
  · rw [hpc] at h
    rcases htd : s.tmpdir with _ | t
    · rw [htd] at h
      simp at h
    · rw [htd] at h
      split_ifs at h
      · rcases hrq : s.resolvedQuant with _ | q <;> rw [hrq] at h <;> simp at h <;>
          exact h.2
      · simp at h
        exact h.2

theorem PyTorch.slrs_state_flags (env : PyTorch.Env) (s1 : PyTorch.St) :
    (PyTorch.swapLoadRestoreStep env s1).state.config.library = s1.config.library ∧
    (PyTorch.swapLoadRestoreStep env s1).state.config.torch_compile =
      s1.config.torch_compile ∧
    (PyTorch.swapLoadRestoreStep env s1).state.checkpointTensors =
      s1.checkpointTensors := by
  unfold PyTorch.swapLoadRestoreStep
  rcases s1.no_weights_model with _ | nw
  · exact ⟨rfl, rfl, rfl⟩
  · cases ho : (PyTorch.load_model_from_pretrained env
        (PyTorch.modelSwappedSt s1 nw)).error <;>
      simp only [ho] <;>
      refine ⟨?_, ?_, ?_⟩ <;>
      simp [PyTorch.load_pt_state_config, PyTorch.load_pt_state_checkpoint,
        PyTorch.modelSwappedSt]

theorem PyTorch.slrs_no_wrote (env : PyTorch.Env) (s1 : PyTorch.St)
    (p : String) (ts : List TensorSpec) :
    PyTorch.Event.wroteSafetensors p ts ∉
      (PyTorch.swapLoadRestoreStep env s1).events := by
  unfold PyTorch.swapLoadRestoreStep
  rcases s1.no_weights_model with _ | nw
  · simp
  · cases ho : (PyTorch.load_model_from_pretrained env
        (PyTorch.modelSwappedSt s1 nw)).error <;>
      simp only [ho] <;>
      exact PyTorch.load_pt_no_wrote env _ p ts

theorem PyTorch.lmwnw_pt_wrote (env : PyTorch.Env) (s : PyTorch.St)
    (p : String) (ts : List TensorSpec)
    (h : PyTorch.Event.wroteSafetensors p ts ∈
      (PyTorch.load_model_with_no_weights env s).events) :
    ts = PyTorch.noWeightsStateDict env s.config s.pretrained_config := by
  unfold PyTorch.load_model_with_no_weights at h
  rcases Outcome.mem_of_mem_andThen h with h1 | ⟨_, h2⟩
  · exact PyTorch.create_pt_wrote env s p ts h1
  · by_cases hds : ((PyTorch.create_no_weights_model env s).state).config.deepspeed_inference = true
    · rw [if_pos hds] at h2
      simp at h2
    · rw [if_neg hds] at h2
      exact absurd h2 (PyTorch.slrs_no_wrote env _ p ts)

theorem PyTorch.modelStep_wrote (env : PyTorch.Env) (s : PyTorch.St)
    (p : String) (ts : List TensorSpec)
    (h : PyTorch.Event.wroteSafetensors p ts ∈ (PyTorch.modelStep env s).events) :
    ts = PyTorch.noWeightsStateDict env s.config s.pretrained_config := by
  unfold PyTorch.modelStep at h
  split_ifs at h
  · simp at h
  · exact PyTorch.lmwnw_pt_wrote env s p ts h
  · exact absurd h (PyTorch.load_pt_no_wrote env s p ts)

theorem PyTorch.modelStep_flags (env : PyTorch.Env) (s : PyTorch.St) :
    (PyTorch.modelStep env s).state.config.library = s.config.library ∧
    (PyTorch.modelStep env s).state.config.torch_compile = s.config.torch_compile := by
  unfold PyTorch.modelStep
  split_ifs
  · exact ⟨rfl, rfl⟩
  · unfold PyTorch.load_model_with_no_weights
    cases he : (PyTorch.create_no_weights_model env s).error with
    | some e =>
      rw [Outcome.andThen_of_error_some he]
      rw [PyTorch.create_pt_state_config]
      exact ⟨rfl, rfl⟩
    | none =>
      rw [Outcome.state_andThen he]
      by_cases hds : ((PyTorch.create_no_weights_model env s).state).config.deepspeed_inference = true
      · rw [if_pos hds]
        constructor <;> rw [show ∀ u : PyTorch.St, u.config = u.config from fun _ => rfl] <;>
          rw [show ({ (PyTorch.create_no_weights_model env s).state with
              hasModelAttr := true, modelDevice := some "cpu" } : PyTorch.St).config =
            ((PyTorch.create_no_weights_model env s).state).config from rfl,
            PyTorch.create_pt_state_config]
      · rw [if_neg hds]
        obtain ⟨hl, hc, _⟩ := PyTorch.slrs_state_flags env
          ((PyTorch.create_no_weights_model env s).state)
        rw [hl, hc, PyTorch.create_pt_state_config]
        exact ⟨rfl, rfl⟩
  · rw [PyTorch.load_pt_state_config]
    exact ⟨rfl, rfl⟩

theorem PyTorch.cleanup_pt_state_config (s : PyTorch.St) :
    (PyTorch.tmpdirCleanupStep s).state.config = s.config := by
  unfold PyTorch.tmpdirCleanupStep
  rcases s.tmpdir with _ | t
  · rfl
  · rcases t.cleanup with ⟨t2, removed⟩
    rfl

theorem PyTorch.cleanup_pt_no_wrote (s : PyTorch.St) (p : String)
    (ts : List TensorSpec) :
    PyTorch.Event.wroteSafetensors p ts ∉ (PyTorch.tmpdirCleanupStep s).events := by
  unfold PyTorch.tmpdirCleanupStep
  rcases s.tmpdir with _ | t
  · simp [Outcome.ok]
  · rcases t.cleanup with ⟨t2, removed⟩
    rcases removed with _ | _ <;> simp

theorem PyTorch.cacheStep_state (s : PyTorch.St) :
    (PyTorch.cacheStep s).state = s := by
  unfold PyTorch.cacheStep
  rcases s.config.cache_implementation with _ | i <;> rfl

theorem PyTorch.cacheStep_no_wrote (s : PyTorch.St) (p : String)
    (ts : List TensorSpec) :
    PyTorch.Event.wroteSafetensors p ts ∉ (PyTorch.cacheStep s).events := by
  unfold PyTorch.cacheStep
  rcases s.config.cache_implementation with _ | i <;> simp [Outcome.ok]

theorem PyTorch.evalStep_state (s : PyTorch.St) :
    (PyTorch.evalStep s).state = s := by
  unfold PyTorch.evalStep
  split_ifs <;> rfl

theorem PyTorch.evalStep_no_wrote (s : PyTorch.St) (p : String)
    (ts : List TensorSpec) :
    PyTorch.Event.wroteSafetensors p ts ∉ (PyTorch.evalStep s).events := by
  unfold PyTorch.evalStep
  split_ifs <;> simp [Outcome.ok]

theorem PyTorch.btStep_state (s : PyTorch.St) :
    (PyTorch.bettertransformerStep s).state = s := by
  unfold PyTorch.bettertransformerStep
  split_ifs <;> rfl

theorem PyTorch.btStep_no_wrote (s : PyTorch.St) (p : String)
    (ts : List TensorSpec) :
    PyTorch.Event.wroteSafetensors p ts ∉ (PyTorch.bettertransformerStep s).events := by
  unfold PyTorch.bettertransformerStep
  split_ifs <;> simp [Outcome.ok]

theorem PyTorch.peftStep_state (s : PyTorch.St) :
    (PyTorch.peftStep s).state = s := by
  unfold PyTorch.peftStep
  rcases s.config.peft_type with _ | pt <;> rfl

theorem PyTorch.peftStep_no_wrote (s : PyTorch.St) (p : String)
    (ts : List TensorSpec) :
    PyTorch.Event.wroteSafetensors p ts ∉ (PyTorch.peftStep s).events := by
  unfold PyTorch.peftStep
  rcases s.config.peft_type with _ | pt <;> simp [Outcome.ok]

theorem PyTorch.compileStep_no_wrote (env : PyTorch.Env) (s : PyTorch.St)
    (p : String) (ts : List TensorSpec) :
    PyTorch.Event.wroteSafetensors p ts ∉ (PyTorch.compileStep env s).events := by
  unfold PyTorch.compileStep
  split_ifs <;> simp [Outcome.ok]

theorem PyTorch.dsInit_no_wrote (s : PyTorch.St) (p : String)
    (ts : List TensorSpec) :
    PyTorch.Event.wroteSafetensors p ts ∉ (PyTorch.deepspeedInitStep s).events := by
  unfold PyTorch.deepspeedInitStep
  split_ifs <;> simp [Outcome.ok]

theorem PyTorch.tmpdirStep_state_config (env : PyTorch.Env) (s : PyTorch.St) :
    (PyTorch.tmpdirStep env s).state.config = s.config := rfl

theorem PyTorch.compileStep_state (env : PyTorch.Env) (s : PyTorch.St) :
    (PyTorch.compileStep env s).state = s := by
  unfold PyTorch.compileStep
  split_ifs <;> rfl

theorem PyTorch.dsInit_state (s : PyTorch.St) :
    (PyTorch.deepspeedInitStep s).state = s := by
  unfold PyTorch.deepspeedInitStep
  split_ifs <;> rfl

theorem PyTorch.compileStep_ok_model_on_cuda (env : PyTorch.Env) (s : PyTorch.St)
    (h1 : s.config.torch_compile = true) (h2 : s.config.library ≠ "diffusers")
    (he : (PyTorch.compileStep env s).error = none) :
    s.modelDevice = some "cuda" ∨ s.modelDevice = some "cuda:0" := by
  unfold PyTorch.compileStep at he
  rw [if_pos h1, if_neg h2] at he
  by_cases hc : (!env.cudaAvailable) = true
  · rw [if_pos hc] at he
    simp at he
  · rw [if_neg hc] at he
    split_ifs at he with hd
    exact hd

theorem PyTorch.init_compile_stage (env : PyTorch.Env) (config : PyTorch.Config)
    (pc : Option PyTorch.PretrainedConfig)
    (h : (PyTorch.init env config pc).error = none) :
    ∃ sK : PyTorch.St,
      sK.config.library = config.library ∧
      sK.config.torch_compile = config.torch_compile ∧
      (PyTorch.compileStep env sK).error = none ∧
      (∀ e, e ∈ (PyTorch.compileStep env sK).events →
        e ∈ (PyTorch.init env config pc).events) ∧
      (PyTorch.init env config pc).state = sK := by
  unfold PyTorch.init at h
  have e1 := Outcome.error_none_left h
  have h2 := Outcome.error_none_right h
  have e2 := Outcome.error_none_left h2
  have h3 := Outcome.error_none_right h2
  have e3 := Outcome.error_none_left h3
  have h4 := Outcome.error_none_right h3
  have e4 := Outcome.error_none_left h4
  have h5 := Outcome.error_none_right h4
  have e5 := Outcome.error_none_left h5
  have h6 := Outcome.error_none_right h5
  have e6 := Outcome.error_none_left h6
  have h7 := Outcome.error_none_right h6
  have e7 := Outcome.error_none_left h7
  have h8 := Outcome.error_none_right h7
  have e8 := Outcome.error_none_left h8
  have h9 := Outcome.error_none_right h8
  have e9 := Outcome.error_none_left h9
  have h10 := Outcome.error_none_right h9
  have e10 := Outcome.error_none_left h10
  have h11 := Outcome.error_none_right h10
  have e11 := Outcome.error_none_left h11
  have h12 := Outcome.error_none_right h11
  have e12 := Outcome.error_none_left h12
  have h13 := Outcome.error_none_right h12
  have e13 := Outcome.error_none_left h13
  refine ⟨_, ?_, ?_, e13, ?_, ?_⟩
  · rw [PyTorch.peftStep_state, PyTorch.btStep_state, PyTorch.evalStep_state,
      PyTorch.cacheStep_state, PyTorch.cleanup_pt_state_config,
      (PyTorch.modelStep_flags env _).1, PyTorch.tmpdirStep_state_config,
      PyTorch.autocast_state, PyTorch.threads_state,
      (PyTorch.quant_state_config _).1, PyTorch.ds_check_state,
      PyTorch.validate_state]
    rfl
  · rw [PyTorch.peftStep_state, PyTorch.btStep_state, PyTorch.evalStep_state,
      PyTorch.cacheStep_state, PyTorch.cleanup_pt_state_config,
      (PyTorch.modelStep_flags env _).2, PyTorch.tmpdirStep_state_config,
      PyTorch.autocast_state, PyTorch.threads_state,
      (PyTorch.quant_state_config _).1, PyTorch.ds_check_state,
      PyTorch.validate_state]
    rfl
  · intro e he
    unfold PyTorch.init
    exact Outcome.mem_andThen_right e1
      (Outcome.mem_andThen_right e2
        (Outcome.mem_andThen_right e3
          (Outcome.mem_andThen_right e4
            (Outcome.mem_andThen_right e5
              (Outcome.mem_andThen_right e6
                (Outcome.mem_andThen_right e7
                  (Outcome.mem_andThen_right e8
                    (Outcome.mem_andThen_right e9
                      (Outcome.mem_andThen_right e10
                        (Outcome.mem_andThen_right e11
                          (Outcome.mem_andThen_right e12
                            (Outcome.mem_andThen_left he))))))))))))
  · unfold PyTorch.init
    rw [Outcome.state_andThen e1, Outcome.state_andThen e2, Outcome.state_andThen e3,
      Outcome.state_andThen e4, Outcome.state_andThen e5, Outcome.state_andThen e6,
      Outcome.state_andThen e7, Outcome.state_andThen e8, Outcome.state_andThen e9,
      Outcome.state_andThen e10, Outcome.state_andThen e11, Outcome.state_andThen e12,
      Outcome.state_andThen e13, PyTorch.dsInit_state, PyTorch.compileStep_state]

theorem PyTorch.compileStep_ok_generate (env : PyTorch.Env) (s : PyTorch.St)
    (h1 : s.config.torch_compile = true) (h2 : s.config.library ≠ "diffusers")
    (he : (PyTorch.compileStep env s).error = none) :
    PyTorch.Event.ranGenerate "cuda:0" 16 ∈ (PyTorch.compileStep env s).events := by
  unfold PyTorch.compileStep at he ⊢
  rw [if_pos h1, if_neg h2] at he ⊢
  by_cases hc : (!env.cudaAvailable) = true
  · rw [if_pos hc] at he
    simp at he
  · rw [if_neg hc] at he ⊢
    split_ifs at he ⊢ <;> simp_all

theorem PyTorch.compileStep_fails_without_cuda (env : PyTorch.Env) (s : PyTorch.St)
    (h1 : s.config.torch_compile = true) (h2 : s.config.library ≠ "diffusers")
    (hc : env.cudaAvailable = false) :
    (PyTorch.compileStep env s).error ≠ none := by
  unfold PyTorch.compileStep
  rw [if_pos h1, if_neg h2, if_pos (show (!env.cudaAvailable) = true by rw [hc]; rfl)]
  simp

theorem PyTorch.init_pt_wrote (env : PyTorch.Env) (config : PyTorch.Config)
    (pc : Option PyTorch.PretrainedConfig) (p : String) (ts : List TensorSpec)
    (h : PyTorch.Event.wroteSafetensors p ts ∈ (PyTorch.init env config pc).events) :
    ts = PyTorch.noWeightsStateDict env config pc := by
  unfold PyTorch.init at h
  rcases Outcome.mem_of_mem_andThen h with h1 | ⟨_, h⟩
  · rw [PyTorch.validate_events] at h1
    cases h1
  · rcases Outcome.mem_of_mem_andThen h with h1 | ⟨_, h⟩
    · rw [PyTorch.ds_check_events] at h1
      cases h1
    · rcases Outcome.mem_of_mem_andThen h with h1 | ⟨_, h⟩
      · exact absurd h1 (PyTorch.quant_no_wrote _ p ts)
      · rcases Outcome.mem_of_mem_andThen h with h1 | ⟨_, h⟩
        · exact absurd h1 (PyTorch.threads_no_wrote _ p ts)
        · rcases Outcome.mem_of_mem_andThen h with h1 | ⟨_, h⟩
          · exact absurd h1 (PyTorch.autocast_no_wrote _ p ts)
          · rcases Outcome.mem_of_mem_andThen h with h1 | ⟨_, h⟩
            · exact absurd h1 (PyTorch.tmpdirStep_no_wrote env _ p ts)
            · rcases Outcome.mem_of_mem_andThen h with h1 | ⟨_, h⟩
              · -- the wroteSafetensors event comes from the model step: relate
                -- the state there to the original config and pretrained config
                have hts := PyTorch.modelStep_wrote env _ p ts h1
                have hcfg :
                    ((PyTorch.tmpdirStep env
                      ((PyTorch.autocastStep
                        ((PyTorch.threadsStep
                          ((PyTorch.quantStep
                            ((PyTorch.deepspeedQuantCheckStep
                              ((PyTorch.validate_library
                                (PyTorch.freshSt config pc)).state)).state)).state)).state)).state)).state).config
                      = config := by
                  rw [show ∀ u : PyTorch.St, (PyTorch.tmpdirStep env u).state.config = u.config
                      from fun _ => rfl]
                  rw [PyTorch.autocast_state, PyTorch.threads_state]
                  rw [(PyTorch.quant_state_config _).1]
                  rw [PyTorch.ds_check_state, PyTorch.validate_state]
                  rfl
                have hpc :
                    ((PyTorch.tmpdirStep env
                      ((PyTorch.autocastStep
                        ((PyTorch.threadsStep
                          ((PyTorch.quantStep
                            ((PyTorch.deepspeedQuantCheckStep
                              ((PyTorch.validate_library
                                (PyTorch.freshSt config pc)).state)).state)).state)).state)).state)).state).pretrained_config
                      = pc := by
                  rw [show ∀ u : PyTorch.St,
                      (PyTorch.tmpdirStep env u).state.pretrained_config = u.pretrained_config
                      from fun _ => rfl]
                  rw [PyTorch.autocast_state, PyTorch.threads_state]
                  rw [(PyTorch.quant_state_config _).2.1]
                  rw [PyTorch.ds_check_state, PyTorch.validate_state]
                  rfl
                rw [hcfg, hpc] at hts
                exact hts
              · rcases Outcome.mem_of_mem_andThen h with h1 | ⟨_, h⟩
                · exact absurd h1 (PyTorch.cleanup_pt_no_wrote _ p ts)
                · rcases Outcome.mem_of_mem_andThen h with h1 | ⟨_, h⟩
                  · exact absurd h1 (PyTorch.cacheStep_no_wrote _ p ts)
                  · rcases Outcome.mem_of_mem_andThen h with h1 | ⟨_, h⟩
                    · exact absurd h1 (PyTorch.evalStep_no_wrote _ p ts)
                    · rcases Outcome.mem_of_mem_andThen h with h1 | ⟨_, h⟩
                      · exact absurd h1 (PyTorch.btStep_no_wrote _ p ts)
                      · rcases Outcome.mem_of_mem_andThen h with h1 | ⟨_, h⟩
                        · exact absurd h1 (PyTorch.peftStep_no_wrote _ p ts)
                        · rcases Outcome.mem_of_mem_andThen h with h1 | ⟨_, h⟩
                          · exact absurd h1 (PyTorch.compileStep_no_wrote env _ p ts)
                          · exact absurd h (PyTorch.dsInit_no_wrote _ p ts)

/-- Claim C7: `clean` is idempotent for both backends: the first call never
raises, and a second call raises nothing, leaves the state exactly where the
first call left it, and performs no resource-release effect (no temporary
directory removal, no model deletion) — the model attribute is gone and the
temporary directory's cleanup no-ops once the directory is released. -/
theorem c7_clean_idempotent :
    (∀ s : PyTorch.St,
      (PyTorch.clean s).error = none ∧
      (PyTorch.clean (PyTorch.clean s).state).error = none ∧
      (PyTorch.clean (PyTorch.clean s).state).state = (PyTorch.clean s).state ∧
      ((PyTorch.clean (PyTorch.clean s).state).events.filter
        PyTorch.Event.isResourceRelease) = []) ∧
    (∀ s : PyTXI.St,
      (PyTXI.clean s).error = none ∧
      (PyTXI.clean (PyTXI.clean s).state).error = none ∧
      (PyTXI.clean (PyTXI.clean s).state).state = (PyTXI.clean s).state ∧
      ((PyTXI.clean (PyTXI.clean s).state).events.filter
        PyTXI.Event.isResourceRelease) = []) := by
  constructor
  · intro s
    obtain ⟨herr1, hst1⟩ := PyTorch.clean_pt_spec s
    obtain ⟨herr2, _⟩ := PyTorch.clean_pt_spec (PyTorch.clean s).state
    have hsecond := PyTorch.clean_pt_second_run (PyTorch.clean s).state
      (by
        rw [hst1]
        rcases ht : s.tmpdir with _ | t
        · exact Or.inl rfl
        · exact Or.inr ⟨t.name, rfl⟩)
      (by rw [hst1])
    exact ⟨herr1, herr2, hsecond.1, hsecond.2⟩
  · intro s
    obtain ⟨herr1, hst1⟩ := PyTXI.clean_spec s
    obtain ⟨herr2, _⟩ := PyTXI.clean_spec (PyTXI.clean s).state
    have hsecond := PyTXI.clean_second_run (PyTXI.clean s).state
      (by rw [hst1])
      (by
        intro ha
        rw [hst1]
        rw [hst1] at ha
        by_cases hb : s.hasTmpdirAttr = true
        · rw [if_pos hb]
          exact ⟨rfl, rfl⟩
        · rw [if_neg hb]
          simp at ha
          exact absurd ha hb)
    exact ⟨herr1, herr2, hsecond.1, hsecond.2⟩

/-- Claim C9: with torch compile enabled and a non-diffusers library,
`__init__` executes, before returning, a hard-coded `generate` call whose
input tensors live on `cuda:0` and whose generation length is fixed to 16
new tokens; on a machine without CUDA such a construction never returns
normally; and whenever the constructed backend's model was not placed on
`cuda:0` (neither by an explicit move to a cuda device nor by device-map
dispatch), construction raises instead of returning a Ready backend. -/
theorem c9_torch_compile_runs_cuda_generate (env : PyTorch.Env)
    (config : PyTorch.Config) (pc : Option PyTorch.PretrainedConfig)
    (h1 : config.torch_compile = true) (h2 : config.library ≠ "diffusers") :
    ((PyTorch.init env config pc).error = none →
      PyTorch.Event.ranGenerate "cuda:0" 16 ∈ (PyTorch.init env config pc).events) ∧
    (env.cudaAvailable = false → (PyTorch.init env config pc).error ≠ none) ∧
    ((PyTorch.init env config pc).state.modelDevice ≠ some "cuda" →
      (PyTorch.init env config pc).state.modelDevice ≠ some "cuda:0" →
      (PyTorch.init env config pc).error ≠ none) := by
  refine ⟨?_, ?_, ?_⟩
  · intro herr
    obtain ⟨sK, hl, hcmp, hce, hmem, _⟩ := PyTorch.init_compile_stage env config pc herr
    exact hmem _ (PyTorch.compileStep_ok_generate env sK (hcmp.trans h1)
      (by rw [hl]; exact h2) hce)
  · intro hcuda hcontra
    obtain ⟨sK, hl, hcmp, hce, _, _⟩ := PyTorch.init_compile_stage env config pc hcontra
    exact PyTorch.compileStep_fails_without_cuda env sK (hcmp.trans h1)
      (by rw [hl]; exact h2) hcuda hce
  · intro hd1 hd2 hcontra
    obtain ⟨sK, hl, hcmp, hce, _, hst⟩ := PyTorch.init_compile_stage env config pc hcontra
    rcases PyTorch.compileStep_ok_model_on_cuda env sK (hcmp.trans h1)
        (by rw [hl]; exact h2) hce with hcu | hcu
    · exact hd1 (by rw [hst, hcu])
    · exact hd2 (by rw [hst, hcu])

/-- Claim C9 (witness): the compile-time generate claim evaluated at the
concrete torch-compile configuration. -/
theorem c9_torch_compile_witness :
    ((PyTorch.init ptSampleEnv ptCompileConfig none).error = none →
      PyTorch.Event.ranGenerate "cuda:0" 16 ∈
        (PyTorch.init ptSampleEnv ptCompileConfig none).events) ∧
    (ptSampleEnv.cudaAvailable = false →
      (PyTorch.init ptSampleEnv ptCompileConfig none).error ≠ none) ∧
    ((PyTorch.init ptSampleEnv ptCompileConfig none).state.modelDevice ≠ some "cuda" →
      (PyTorch.init ptSampleEnv ptCompileConfig none).state.modelDevice ≠ some "cuda:0" →
      (PyTorch.init ptSampleEnv ptCompileConfig none).error ≠ none) :=
  c9_torch_compile_runs_cuda_generate ptSampleEnv ptCompileConfig none
    (by decide) (by decide)

theorem PyTorch.pcExllamaVersionTwo_false (pc : Option PyTorch.PretrainedConfig) :
    PyTorch.pcExllamaVersionTwo pc = false := by
  unfold PyTorch.pcExllamaVersionTwo PyTorch.quantDictHasAttr
  rcases pc with _ | ⟨_ | q⟩ <;> rfl

theorem PyTorch.nwsd_pair_without_config_exllamav2 (env : PyTorch.Env)
    (c : PyTorch.Config) (pc : Option PyTorch.PretrainedConfig)
    (h : PyTorch.configExllamaVersionTwo c = false) :
    PyTorch.noWeightsStateDict env c pc = linear11StateDict := by
  unfold PyTorch.noWeightsStateDict PyTorch.is_exllamav2
  rw [PyTorch.pcExllamaVersionTwo_false, h]
  simp

/-- Claim C4 (counterexample): the claim says every no-weights construction
produces a checkpoint containing exactly the 1×1 linear pair (plus
quantization placeholders).  For `PyTXIBackend` the safetensors file is
first written with exactly that pair, but — because TXI refuses models with
missing tensors — the directory is then overwritten with the fully
materialized model (`save_pretrained`): after this concrete successful
construction the on-disk checkpoint holds the materialized model's three
tensors, not the pair. -/
theorem c4_counterexample_txi_checkpoint_overwritten :
    (PyTXI.init txiSampleEnv txiSampleConfig).error = none ∧
    (PyTXI.init txiSampleEnv txiSampleConfig).state.checkpointTensors =
      some sampleMaterializedTensors ∧
    sampleMaterializedTensors ≠ linear11StateDict := by
  decide

/-- Claim C4 (amended): in `PyTorchBackend`, every safetensors checkpoint
written during construction contains exactly the 1×1 linear weight/bias
pair, extended — only when the backend config's own quantization dict
requests exllama version 2 — with one int32 `g_idx` tensor of shape
`(in_features,)` per meta-model module with an `in_features` attribute,
and nothing else; an exllama-v2 declaration carried only by the pretrained
config never triggers the placeholders, its `hasattr` guard testing a
plain dict.  In `PyTXIBackend` the initially written safetensors file
likewise contains exactly the pair, but the final on-disk no-weights
checkpoint is the fully materialized model's tensor set, which replaces
the pair before the server launch. -/
theorem c4_no_weights_checkpoint_contents :
    (∀ env config pc p ts,
      PyTorch.Event.wroteSafetensors p ts ∈ (PyTorch.init env config pc).events →
      ts = PyTorch.noWeightsStateDict env config pc) ∧
    (∀ env config pc, PyTorch.configExllamaVersionTwo config = false →
      PyTorch.noWeightsStateDict env config pc = linear11StateDict) ∧
    (∀ env config p ts,
      PyTXI.Event.wroteSafetensors p ts ∈ (PyTXI.init env config).events →
      ts = linear11StateDict) ∧
    (∀ env config, config.no_weights = true → config.volumes ≠ [] →
      (PyTXI.init env config).state.checkpointTensors =
        some env.materializedTensors) :=
  ⟨fun env config pc p ts h => PyTorch.init_pt_wrote env config pc p ts h,
   fun env config pc h => PyTorch.nwsd_pair_without_config_exllamav2 env config pc h,
   fun env config p ts h => PyTXI.init_wrote env config p ts h,
   fun env config h1 h2 => PyTXI.init_checkpoint env config h1 h2⟩

/-- Claim C4 (witness): the checkpoint-contents claim evaluated at concrete
inputs — an exllama-v2 GPTQ no-weights pytorch construction whose written
state dict is the pair plus one `g_idx` tensor, a pretrained config
declaring GPTQ with exllama v2 that nevertheless yields only the pair, and
the py-txi no-weights construction whose final checkpoint is the
materialized model. -/
theorem c4_checkpoint_contents_witness :
    ([⟨"weight", DType.float32, [1, 1]⟩, ⟨"bias", DType.float32, [1]⟩,
      ⟨"model.layers.0.fc1.g_idx", DType.int32, [16]⟩] : List TensorSpec) =
      PyTorch.noWeightsStateDict ptSampleEnv ptExllamaNoWeightsConfig (some ⟨none⟩) ∧
    PyTorch.noWeightsStateDict ptSampleEnv ptSampleConfig
        (some ⟨some ⟨some "gptq", some ⟨some 2⟩⟩⟩) = linear11StateDict ∧
    (PyTXI.init txiSampleEnv txiSampleConfig).state.checkpointTensors =
      some txiSampleEnv.materializedTensors :=
  ⟨c4_no_weights_checkpoint_contents.1 ptSampleEnv ptExllamaNoWeightsConfig
      (some ⟨none⟩) "/tmp/tmpy2/no_weights_model/model.safetensors"
      [⟨"weight", DType.float32, [1, 1]⟩, ⟨"bias", DType.float32, [1]⟩,
       ⟨"model.layers.0.fc1.g_idx", DType.int32, [16]⟩]
      (by
        rw [show (PyTorch.init ptSampleEnv ptExllamaNoWeightsConfig (some ⟨none⟩)).events =
          [PyTorch.Event.processedQuantizationConfig "gptq",
           PyTorch.Event.createdTmpDir "/tmp/tmpy2",
           PyTorch.Event.madeNoWeightsDir "/tmp/tmpy2/no_weights_model",
           PyTorch.Event.wroteSafetensors "/tmp/tmpy2/no_weights_model/model.safetensors"
             [⟨"weight", DType.float32, [1, 1]⟩, ⟨"bias", DType.float32, [1]⟩,
              ⟨"model.layers.0.fc1.g_idx", DType.int32, [16]⟩],
           PyTorch.Event.savedPretrainedConfig "/tmp/tmpy2/no_weights_model" true,
           PyTorch.Event.loadedTransformersModel "/tmp/tmpy2/no_weights_model" (some "cpu"),
           PyTorch.Event.removedTmpDir "/tmp/tmpy2",
           PyTorch.Event.setEvalMode] from rfl]
        simp),
   c4_no_weights_checkpoint_contents.2.1 ptSampleEnv ptSampleConfig
      (some ⟨some ⟨some "gptq", some ⟨some 2⟩⟩⟩) (by decide),
   c4_no_weights_checkpoint_contents.2.2.2 txiSampleEnv txiSampleConfig
      (by decide) (by decide)⟩

/-- Claim C10 (witness): a kwargs entry under another key (here
`temperature`) is ignored by `prefill` at a concrete input. -/
theorem c10_other_kwargs_ignored_witness :
    PyTXI.prefill (PyTXI.Prepared.prompt ["hello"])
        [("temperature", KwVal.int 1), ("do_sample", KwVal.bool true)] =
      PyTXI.prefill (PyTXI.Prepared.prompt ["hello"])
        [("do_sample", KwVal.bool true)] :=
  (c10_prefill_generate_forward_two_kwargs (PyTXI.Prepared.prompt ["hello"])
      [("do_sample", KwVal.bool true)]).2.2.2.2
    "temperature" (KwVal.int 1) (by decide) (by decide)

end OB
